import Mathlib

/-!
# Buffer lifecycle of `clients/simple-dmabuf-ion.c`

A shallow embedding of the ION/dma-buf example client: heap selection, buffer
allocation and GPU import (`create_dmabuf_buffer`, `create_fbo_for_buffer`), teardown
(`buffer_free`), the three-slot presentation pool (`window_next_buffer`, `redraw`,
`buffer_release`) and the start-up path (`create_window`, `main`).

Conventions.
* `unsigned`/`__u32`/`__u64` values and pointers are `Nat` (the null pointer is `0`);
  `int` values are `Int`.  Arithmetic that C performs in a fixed width is reduced
  modulo `2 ^ 32` (or `2 ^ 64`) explicitly.
* Everything the program asks of the kernel, the GPU or the display server is an
  *outcome* supplied by an environment record, and every call that leaves the process is
  appended to a trace of `call`s, so that the order and number of calls can be stated.
* `abort()` (and a failing `assert`) is the result `none` / `aborted`.
* `atoi` is the C library function as glibc defines it, `(int) strtol(nptr, NULL, 10)`,
  with a `long` of 64 bits.
* Diagnostics written to standard output are not recorded; messages written to
  standard error are.
-/

set_option linter.dupNamespace false

namespace SimpleDmabufIon

/-! ## Constants -/

/-- Number of values of an `unsigned int` / `__u32`. -/
def U32 : Nat := 2 ^ 32

/-- The value an `int` computation has after wrapping to 32 bits, two's complement. -/
def wrap_int (x : Int) : Int := (x + 2 ^ 31) % 2 ^ 32 - 2 ^ 31

/-- Conversion of an `int` to `unsigned int`. -/
def to_u32 (x : Int) : Nat := (x % 2 ^ 32).toNat

/-- Conversion of an `int` to `__u64` (sign extending). -/
def to_u64 (x : Int) : Nat := (x % 2 ^ 64).toNat

/-- `#define GPU_RGB_ALIGN_SZ (64u)`. -/
def GPU_RGB_ALIGN_SZ : Nat := 64

/-- `#define GPU_YUV_ALIGN_SZ (16u)`. -/
def GPU_YUV_ALIGN_SZ : Nat := 16

/-- `#define SIZE_ALIGN(value, base) (((value) + ((base)-1)) & ~((base)-1))`, with both
operands `unsigned int` (the base is an unsigned literal, so the value is converted). -/
def SIZE_ALIGN (value base : Nat) : Nat :=
  ((value + (base + U32 - 1) % U32) % U32) &&& (U32 - 1 - (base + U32 - 1) % U32)

/-- `enum ion_heap_type`, first enumerator. -/
def ION_HEAP_TYPE_SYSTEM : Nat := 0

/-- `enum ion_heap_type`, second enumerator. -/
def ION_HEAP_TYPE_SYSTEM_CONTIG : Nat := 1

/-- `enum ion_heap_type`, third enumerator. -/
def ION_HEAP_TYPE_CARVEOUT : Nat := 2

/-- `enum ion_heap_type`, fourth enumerator. -/
def ION_HEAP_TYPE_CARVEOUT_CAM : Nat := 3

/-- `enum ion_heap_type`, fifth enumerator. -/
def ION_HEAP_TYPE_CHUNK : Nat := 4

/-- `enum ion_heap_type`, sixth enumerator. -/
def ION_HEAP_TYPE_DMA : Nat := 5

/-- `enum ion_heap_type`, last enumerator. -/
def ION_HEAP_TYPE_CUSTOM : Nat := 6

/-- `#define MAX_HEAP_COUNT ION_HEAP_TYPE_CUSTOM`. -/
def MAX_HEAP_COUNT : Nat := ION_HEAP_TYPE_CUSTOM

/-- `#define ION_NUM_HEAP_IDS (sizeof(unsigned int) * 8)`. -/
def ION_NUM_HEAP_IDS : Nat := 4 * 8

/-- `#define HEAP_MASK_FROM_TYPE(type) (1 << type)`, stored in a `__u32`.  The one use
is reached only with `type ≤ MAX_HEAP_COUNT`, where the shift is defined in C. -/
def HEAP_MASK_FROM_TYPE (type : Nat) : Nat := (1 <<< type) % U32

/-- `#define NUM_BUFFERS 3`. -/
abbrev NUM_BUFFERS : Nat := 3

/-- `static const int MAX_STEP = 180;` of `redraw`. -/
def MAX_STEP : Int := 180

/-- `EGL_NO_IMAGE` of the EGL headers: the null image handle. -/
def EGL_NO_IMAGE : Nat := 0

/-- `MAP_FAILED` of `<sys/mman.h>`: `(void *) -1`, here for 64-bit pointers.  Only the fact
that it is not the null pointer is ever used. -/
def MAP_FAILED : Nat := 2 ^ 64 - 1

/-- `GL_FRAMEBUFFER_COMPLETE` of the GLES2 headers. -/
def GL_FRAMEBUFFER_COMPLETE : Nat := 0x8CD5

/-- `DRM_FORMAT_ARGB8888` of `drm_fourcc.h`: the four characters `AR24`. -/
def DRM_FORMAT_ARGB8888 : Int := 0x34325241

/-! ## Data model -/

/-- `struct ion_allocation_data`. -/
structure ion_allocation_data where
  len : Nat
  heap_id_mask : Nat
  flags : Nat
  fd : Nat
  unused : Nat
deriving DecidableEq, Repr

/-- `struct ion_heap_data` (the reserved words are left out). -/
structure ion_heap_data where
  name : String
  type : Nat
  heap_id : Nat
deriving DecidableEq, Repr

/-- `struct buffer`.  The back pointer `display` is left out: there is one display. -/
structure buffer where
  buffer : Nat
  busy : Int
  ion_data : ion_allocation_data
  vaddr : Nat
  width : Int
  height : Int
  stride : Nat
  format : Int
  egl_image : Nat
  gl_texture : Nat
  gl_fbo : Nat
deriving DecidableEq, Repr

/-- A buffer as `zalloc` leaves it: every byte zero. -/
def buffer.zero : SimpleDmabufIon.buffer :=
  { buffer := 0, busy := 0,
    ion_data := { len := 0, heap_id_mask := 0, flags := 0, fd := 0, unused := 0 },
    vaddr := 0, width := 0, height := 0, stride := 0, format := 0,
    egl_image := 0, gl_texture := 0, gl_fbo := 0 }

/-- The calls that leave the process, as they are recorded in a trace. -/
inductive call where
  | glDeleteFramebuffers (fbo : Nat)
  | glDeleteTextures (texture : Nat)
  | egl_destroy_image (image : Nat)
  | wl_buffer_destroy (wl_buffer : Nat)
  | munmap (addr len : Nat)
  | close (fd : Nat)
  | ioctl_heap_query (cnt : Nat)
  | ioctl_alloc (len heap_id_mask flags : Nat)
  | mmap (len fd : Nat)
  | params_create (fd stride : Nat) (width height format : Int)
  | egl_create_image (width height format : Int) (fd stride : Nat)
  | eglMakeCurrent
  | glGenTextures (texture : Nat)
  | image_target_texture_2d (image : Nat)
  | glGenFramebuffers (fbo : Nat)
  | glFramebufferTexture2D (texture : Nat)
  | glCheckFramebufferStatus (status : Nat)
  | glBindFramebuffer (fbo : Nat)
  | glClearColor (step : Int)
  | glClear
  | glFinish
  | wl_surface_attach (wl_buffer : Nat)
  | wl_surface_damage (width height : Int)
  | wl_callback_destroy (callback : Nat)
  | wl_surface_frame (callback : Nat)
  | wl_surface_commit
  | wl_surface_destroy (surface : Nat)
  | xdg_surface_ack_configure (serial : Nat)
  | xdg_toplevel_destroy (toplevel : Nat)
  | xdg_surface_destroy (xdg_surface : Nat)
  | params_destroy
  | free_window
  | destroy_display
  | fprintf (msg : String)
deriving DecidableEq, Repr

/-! ## Teardown -/

/-- `buffer_free`: the releases it performs, in order.  `ion_data.fd` is a `__u32`, so
the test `buf->ion_data.fd >= 0` is the test `0 ≤ fd` on a natural number. -/
def buffer_free (buf : buffer) : List call :=
  (if buf.gl_fbo ≠ 0 then [call.glDeleteFramebuffers buf.gl_fbo] else []) ++
  (if buf.gl_texture ≠ 0 then [call.glDeleteTextures buf.gl_texture] else []) ++
  (if buf.egl_image ≠ 0 then [call.egl_destroy_image buf.egl_image] else []) ++
  (if buf.buffer ≠ 0 then [call.wl_buffer_destroy buf.buffer] else []) ++
  (if buf.vaddr ≠ 0 then [call.munmap buf.vaddr buf.ion_data.len] else []) ++
  (if 0 ≤ buf.ion_data.fd then [call.close buf.ion_data.fd] else [])

/-- `buffer_release`: the `wl_buffer.release` listener. -/
def buffer_release (mybuf : buffer) : buffer :=
  { mybuf with busy := 0 }

/-! ## Heap selection, allocation and import -/

/-- What the outside world answers during one `create_dmabuf_buffer`. -/
structure dmabuf_env where
  /-- `ION_IOC_HEAP_QUERY`: `none` when the ioctl fails, otherwise the `query.cnt`
  descriptors the kernel copied into `heap_data` (at most `MAX_HEAP_COUNT`). -/
  heap_query : Option (List ion_heap_data)
  /-- `ION_IOC_ALLOC`: `none` when the ioctl fails, otherwise the `fd` it stores. -/
  alloc : Option Nat
  /-- The address `mmap` returns (`MAP_FAILED` on failure). -/
  mmap : Nat
  /-- The handle `eglCreateImageKHR` returns (`EGL_NO_IMAGE` on failure). -/
  create_image : Nat
  /-- The texture name `glGenTextures` hands out. -/
  gen_texture : Nat
  /-- The framebuffer name `glGenFramebuffers` hands out. -/
  gen_fbo : Nat
  /-- The value of `glCheckFramebufferStatus`. -/
  fbo_status : Nat
deriving DecidableEq, Repr

/-- The heap loop of `create_dmabuf_buffer`: `heap_id` keeps its initial value unless a
descriptor of the requested type is met, and the first such descriptor ends the loop. -/
def heap_scan (ion_user_type : Nat) : List ion_heap_data → Nat → Nat
  | [], heap_id => heap_id
  | h :: rest, heap_id =>
    if h.type = ion_user_type then h.heap_id else heap_scan ion_user_type rest heap_id

/-- `create_fbo_for_buffer`: its result, the buffer afterwards and the calls made. -/
def create_fbo_for_buffer (env : dmabuf_env) (buf : buffer) :
    Bool × buffer × List call :=
  let b1 := { buf with egl_image := env.create_image }
  let t1 := [call.egl_create_image b1.width b1.height b1.format b1.ion_data.fd b1.stride]
  if b1.egl_image = EGL_NO_IMAGE then
    (false, b1, t1 ++ [call.fprintf "EGLImageKHR creation failed\n"])
  else
    let b2 := { b1 with gl_texture := env.gen_texture }
    let b3 := { b2 with gl_fbo := env.gen_fbo }
    let t2 := t1 ++ [call.eglMakeCurrent, call.glGenTextures b2.gl_texture,
      call.image_target_texture_2d b2.egl_image, call.glGenFramebuffers b3.gl_fbo,
      call.glBindFramebuffer b3.gl_fbo, call.glFramebufferTexture2D b3.gl_texture,
      call.glCheckFramebufferStatus env.fbo_status]
    if env.fbo_status ≠ GL_FRAMEBUFFER_COMPLETE then
      (false, b3, t2 ++ [call.fprintf "FBO creation failed\n"])
    else
      (true, b3, t2)

/-- The `error:` label of `create_dmabuf_buffer`: `buffer_free(buffer); return -1;`. -/
def create_dmabuf_buffer_error (buf : buffer) (trace : List call) :
    Int × buffer × List call :=
  (-1, buf, trace ++ buffer_free buf)

/-- `create_dmabuf_buffer`: its return value, the buffer afterwards and the calls made.
`ion_user_type` is the file-scope variable of that name. -/
def create_dmabuf_buffer (ion_user_type : Nat) (env : dmabuf_env) (buf : buffer)
    (width height format : Int) : Int × buffer × List call :=
  let b0 := { buf with width := width, height := height, format := format, vaddr := 0 }
  let t0 := [call.ioctl_heap_query MAX_HEAP_COUNT]
  match env.heap_query with
  | none =>
    create_dmabuf_buffer_error b0 (t0 ++ [call.fprintf "error: ION_IOC_HEAP_QUERY failed\n"])
  | some heap_data =>
    let heap_id := heap_scan ion_user_type heap_data (MAX_HEAP_COUNT + 1)
    if heap_id > MAX_HEAP_COUNT then
      create_dmabuf_buffer_error b0
        (t0 ++ [call.fprintf "error: heap type does not exists\n"])
    else
      let b1 := { b0 with ion_data := { b0.ion_data with
        len := to_u64 (wrap_int (wrap_int (width * height) * 4)),
        heap_id_mask := HEAP_MASK_FROM_TYPE heap_id,
        flags := 0 } }
      let t1 := t0 ++ [call.ioctl_alloc b1.ion_data.len b1.ion_data.heap_id_mask
        b1.ion_data.flags]
      match env.alloc with
      | none =>
        create_dmabuf_buffer_error b1 (t1 ++ [call.fprintf "error: ION_IOC_ALLOC failed\n"])
      | some fd =>
        let b2 := { b1 with ion_data := { b1.ion_data with fd := fd } }
        let b3 := { b2 with
          stride := SIZE_ALIGN (to_u32 (wrap_int (b2.width * 4))) GPU_RGB_ALIGN_SZ }
        if b3.ion_data.fd = 0 then
          create_dmabuf_buffer_error b3
            (t1 ++ [call.fprintf "error: get dmabuf_fd failed\n"])
        else
          let b4 := { b3 with vaddr := env.mmap }
          let t2 := t1 ++ [call.mmap b4.ion_data.len b4.ion_data.fd]
          if b4.vaddr = MAP_FAILED then
            create_dmabuf_buffer_error b4 (t2 ++ [call.fprintf "error: mmap failed\n"])
          else
            let t3 := t2 ++ [call.params_create b4.ion_data.fd b4.stride b4.width
              b4.height format]
            let r := create_fbo_for_buffer env b4
            if r.1 = false then
              create_dmabuf_buffer_error r.2.1 (t3 ++ r.2.2)
            else
              (0, r.2.1, t3 ++ r.2.2)

/-! ## The window and its pool -/

/-- `struct display`: the members read after start-up. -/
structure display where
  compositor : Nat
  shell : Nat
  fshell : Nat
  dmabuf : Nat
  dev_fd : Int
deriving DecidableEq, Repr

/-- `struct window`.  The back pointer `display` is left out. -/
structure window where
  width : Int
  height : Int
  surface : Nat
  xdg_surface : Nat
  xdg_toplevel : Nat
  buffers : Fin NUM_BUFFERS → buffer
  callback : Nat
  initialized : Bool
  wait_for_configure : Bool

/-- A window as `zalloc` leaves it: every byte zero. -/
def window.zero : window :=
  { width := 0, height := 0, surface := 0, xdg_surface := 0, xdg_toplevel := 0,
    buffers := fun _ => buffer.zero, callback := 0, initialized := false,
    wait_for_configure := false }

/-- What the outside world answers during `create_window`. -/
structure window_env where
  /-- Whether `zalloc(sizeof *window)` returns memory. -/
  zalloc_ok : Bool
  /-- The proxy `wl_compositor_create_surface` returns. -/
  surface : Nat
  /-- The proxy `zxdg_shell_v6_get_xdg_surface` returns. -/
  xdg_surface : Nat
  /-- The proxy `zxdg_surface_v6_get_toplevel` returns. -/
  xdg_toplevel : Nat
  /-- The outcomes met by `create_dmabuf_buffer` for each slot. -/
  buffers : Fin NUM_BUFFERS → dmabuf_env

/-- The state of the buffer loop of `create_window`. -/
structure pool_build where
  /-- Whether the loop ran to its end (no `return NULL`). -/
  completed : Bool
  /-- The pool. -/
  buffers : Fin NUM_BUFFERS → buffer
  /-- The return values of the calls of `create_dmabuf_buffer` made, in order. -/
  rets : List Int
  /-- The calls made. -/
  trace : List call

/-- The buffer loop of `create_window`, over the slots still to construct:
`ret = create_dmabuf_buffer(...); if (ret < 0) return NULL;`. -/
def create_window_buffers (ion_user_type : Nat) (env : Fin NUM_BUFFERS → dmabuf_env)
    (width height : Int) : List (Fin NUM_BUFFERS) → pool_build → pool_build
  | [], acc => acc
  | i :: rest, acc =>
    let r := create_dmabuf_buffer ion_user_type (env i) (acc.buffers i) width height
      DRM_FORMAT_ARGB8888
    let acc1 : pool_build :=
      { completed := acc.completed,
        buffers := Function.update acc.buffers i r.2.1,
        rets := acc.rets ++ [r.1],
        trace := acc.trace ++ r.2.2 }
    if r.1 < 0 then { acc1 with completed := false }
    else create_window_buffers ion_user_type env width height rest acc1

/-- What `create_window` leaves behind. -/
structure create_window_out where
  /-- The returned pointer: `none` is `NULL`. -/
  window : Option window
  /-- The return values of the calls of `create_dmabuf_buffer` made, in order. -/
  rets : List Int
  /-- The calls made. -/
  trace : List call

/-- The shell branch of `create_window` (`if (display->shell) ... else if
(display->fshell) ... else assert(0)`): the window afterwards and the calls recorded.
The result `none` is a failing `assert`. -/
def create_window_surface (env : window_env) (display : display) (w0 : window) :
    Option (window × List call) :=
  if display.shell ≠ 0 then
    if env.xdg_surface = 0 then none
    else if env.xdg_toplevel = 0 then none
    else some ({ w0 with xdg_surface := env.xdg_surface,
                         xdg_toplevel := env.xdg_toplevel,
                         wait_for_configure := true }, [call.wl_surface_commit])
  else if display.fshell ≠ 0 then some (w0, [])
  else none

/-- `create_window`.  The result `none` is a failing `assert`. -/
def create_window (ion_user_type : Nat) (env : window_env) (display : display)
    (width height : Int) : Option create_window_out :=
  if env.zalloc_ok = false then
    some { window := none, rets := [], trace := [] }
  else
    match create_window_surface env display
      { window.zero with
        callback := 0, width := width, height := height, surface := env.surface } with
    | none => none
    | some w1 =>
      let p := create_window_buffers ion_user_type env.buffers width height
        (List.finRange NUM_BUFFERS)
        { completed := true, buffers := w1.1.buffers, rets := [], trace := w1.2 }
      some { window := if p.completed = false then none
                       else some { w1.1 with buffers := p.buffers },
             rets := p.rets, trace := p.trace }

/-- `window_next_buffer`: the slot of the buffer returned, `none` for `NULL`. -/
def window_next_buffer (window : window) : Option (Fin NUM_BUFFERS) :=
  (List.finRange NUM_BUFFERS).find? (fun i => (window.buffers i).busy = 0)

/-- The file-scope and function-static variables, the window, and the calls made. -/
structure state where
  /-- `static sig_atomic_t running`. -/
  running : Int
  /-- `static int step` of `redraw`. -/
  step : Int
  /-- `static int step_dir` of `redraw`. -/
  step_dir : Int
  /-- The window. -/
  window : window
  /-- The calls made so far. -/
  trace : List call

/-- The ramp update of `redraw`, on the pair of its static variables `step` and
`step_dir`: `step += step_dir; if (step == 0 || step == MAX_STEP) step_dir = -step_dir;`.
Both stay within `[-1, 181]`, so no `int` operation wraps. -/
def ramp_advance (r : Int × Int) : Int × Int :=
  let step := r.1 + r.2
  (step, if step = 0 ∨ step = MAX_STEP then - r.2 else r.2)

/-- `redraw(data, callback, time)`; `frame_cb` is the proxy that `wl_surface_frame`
returns.  The result `none` is `abort()`.  The clear colour is recorded by the value of
`step` it is computed from. -/
def redraw (s : state) (callback frame_cb : Nat) : Option state :=
  match window_next_buffer s.window with
  | none => none
  | some i =>
    let buf := s.window.buffers i
    let ramp := ramp_advance (s.step, s.step_dir)
    let step := ramp.1
    some
      { running := s.running,
        step := step,
        step_dir := ramp.2,
        window := { s.window with
          callback := frame_cb,
          buffers := Function.update s.window.buffers i { buf with busy := 1 } },
        trace := s.trace ++
          [call.glBindFramebuffer buf.gl_fbo, call.glClearColor step, call.glClear,
           call.glFinish, call.wl_surface_attach buf.buffer,
           call.wl_surface_damage s.window.width s.window.height] ++
          (if callback ≠ 0 then [call.wl_callback_destroy callback] else []) ++
          [call.wl_surface_frame frame_cb, call.wl_surface_commit] }

/-! ## Events and listeners -/

/-- What the display server (or the user) can make happen once the window exists. -/
inductive event where
  /-- `wl_buffer.release` for the buffer of a slot: `buffer_release`. -/
  | buffer_release (i : Fin NUM_BUFFERS)
  /-- `wl_callback.done` on `window->callback`: `redraw`; `frame_cb` is the proxy the
  next `wl_surface_frame` returns. -/
  | frame_done (frame_cb : Nat)
  /-- `zwp_linux_buffer_params_v1.created` for a slot: `create_succeeded`. -/
  | create_succeeded (i : Fin NUM_BUFFERS) (new_buffer : Nat)
  /-- `zwp_linux_buffer_params_v1.failed` for a slot: `create_failed`. -/
  | create_failed (i : Fin NUM_BUFFERS)
  /-- `zxdg_surface_v6.configure`: `xdg_surface_handle_configure`. -/
  | xdg_surface_configure (serial frame_cb : Nat)
  /-- `zxdg_toplevel_v6.configure`: `xdg_toplevel_handle_configure`. -/
  | xdg_toplevel_configure
  /-- `zxdg_toplevel_v6.close`: `xdg_toplevel_handle_close`. -/
  | xdg_toplevel_close
  /-- Delivery of `SIGINT`: `signal_int`. -/
  | signal_int
deriving DecidableEq, Repr

/-- The buffer of slot `i` replaced by `f` of it. -/
def state.map_buffer (s : state) (i : Fin NUM_BUFFERS) (f : buffer → buffer) : state :=
  { s with window := { s.window with
      buffers := Function.update s.window.buffers i (f (s.window.buffers i)) } }

/-- `create_succeeded`. -/
def create_succeeded (s : state) (i : Fin NUM_BUFFERS) (new_buffer : Nat) : state :=
  { s.map_buffer i (fun b => { b with buffer := new_buffer }) with
    trace := s.trace ++ [call.params_destroy] }

/-- `create_failed`. -/
def create_failed (s : state) (i : Fin NUM_BUFFERS) : state :=
  { s.map_buffer i (fun b => { b with buffer := 0 }) with
    running := 0,
    trace := s.trace ++ [call.params_destroy,
      call.fprintf "Error: zwp_linux_buffer_params.create failed.\n"] }

/-- `xdg_surface_handle_configure`. -/
def xdg_surface_handle_configure (s : state) (serial frame_cb : Nat) : Option state :=
  let s1 := { s with trace := s.trace ++ [call.xdg_surface_ack_configure serial] }
  let drawn : Option state :=
    if s1.window.initialized = true ∧ s1.window.wait_for_configure = true then
      redraw s1 0 frame_cb
    else some s1
  drawn.map (fun s2 => { s2 with window := { s2.window with wait_for_configure := false } })

/-- `xdg_toplevel_handle_close`. -/
def xdg_toplevel_handle_close (s : state) : state :=
  { s with running := 0 }

/-- `signal_int`. -/
def signal_int (s : state) : state :=
  { s with running := 0 }

/-- The listener that an event runs.  The result `none` is `abort()`. -/
def handle (s : state) : event → Option state
  | event.buffer_release i => some (s.map_buffer i buffer_release)
  | event.frame_done frame_cb => redraw s s.window.callback frame_cb
  | event.create_succeeded i new_buffer => some (create_succeeded s i new_buffer)
  | event.create_failed i => some (create_failed s i)
  | event.xdg_surface_configure serial frame_cb =>
    xdg_surface_handle_configure s serial frame_cb
  | event.xdg_toplevel_configure => some s
  | event.xdg_toplevel_close => some (xdg_toplevel_handle_close s)
  | event.signal_int => some (signal_int s)

/-- The listeners of a sequence of events, run in order. -/
def handle_all : state → List event → Option state
  | s, [] => some s
  | s, e :: es =>
    match handle s e with
    | none => none
    | some s1 => handle_all s1 es

/-! ## Start-up and shutdown -/

/-- `isspace` of the C locale. -/
def isspace (c : Char) : Bool :=
  c.toNat = 32 ∨ (9 ≤ c.toNat ∧ c.toNat ≤ 13)

/-- The digits loop of `strtol` in base 10: the number the leading decimal digits
denote, before it is fitted to `long`. -/
def atoi_digits : List Char → Int → Int
  | [], acc => acc
  | c :: cs, acc =>
    if 48 ≤ c.toNat ∧ c.toNat ≤ 57 then atoi_digits cs (acc * 10 + (c.toNat - 48 : Nat))
    else acc

/-- `LONG_MAX` where `long` has 64 bits (the LP64 data model). -/
def LONG_MAX : Int := 2 ^ 63 - 1

/-- `LONG_MIN` where `long` has 64 bits. -/
def LONG_MIN : Int := - 2 ^ 63

/-- The numeral `strtol(s, NULL, 10)` reads, as a number: leading white space, an optional
sign `-` or `+`, then decimal digits up to the first other character; 0 when no digit
stands there. -/
def strtol_numeral (s : String) : Int :=
  match s.toList.dropWhile isspace with
  | [] => 0
  | c :: cs =>
    if c.toNat = 45 then - atoi_digits cs 0
    else if c.toNat = 43 then atoi_digits cs 0
    else atoi_digits (c :: cs) 0

/-- The value of `strtol(s, NULL, 10)`: the numeral read, replaced by `LONG_MAX` or
`LONG_MIN` when it lies beyond the range of `long`. -/
def strtol (s : String) : Int :=
  if LONG_MAX < strtol_numeral s then LONG_MAX
  else if strtol_numeral s < LONG_MIN then LONG_MIN
  else strtol_numeral s

/-- `atoi` of the C library, which is `(int) strtol(nptr, NULL, 10)`: the conversion
to `int` keeps the low 32 bits of the `long`. -/
def atoi (s : String) : Int :=
  wrap_int (strtol s)

/-- The argument handling at the head of `main`: the value of `ion_user_type`
afterwards.  `argv` holds the program name first, so `argc` is its length. -/
def parse_args (argv : List String) : Nat :=
  if argv.length = 2 then
    if atoi (argv.getD 1 "") = 1 then ION_HEAP_TYPE_CARVEOUT else ION_HEAP_TYPE_SYSTEM
  else ION_HEAP_TYPE_SYSTEM

/-- How `display_set_up_egl` ends. -/
inductive egl_outcome where
  | ok
  | failed
  | assert_failed
  | exit_failure
deriving DecidableEq, Repr

/-- What the outside world answers during `create_display`. -/
structure display_env where
  /-- Whether `zalloc(sizeof *display)` returns memory. -/
  zalloc_ok : Bool
  /-- The connection `wl_display_connect` returns. -/
  connect : Nat
  /-- The globals bound by `registry_handle_global` (zero when not advertised). -/
  globals : display
  /-- How `display_set_up_egl` ends. -/
  egl : egl_outcome
  /-- The descriptor `open(ION_DEVICE, O_RDWR)` returns. -/
  ion_open : Int
deriving DecidableEq, Repr

/-- How a start-up function ends. -/
inductive startup (α : Type) where
  /-- It returns a pointer; `none` is `NULL`. -/
  | returned (p : Option α)
  /-- A failing `assert`, or `abort()`. -/
  | aborted
  /-- A call of `exit`. -/
  | exited (status : Int)

/-- `create_display`. -/
def create_display (env : display_env) : startup display :=
  if env.zalloc_ok = false then startup.returned none
  else if env.connect = 0 then startup.aborted
  else if env.globals.dmabuf = 0 then startup.returned none
  else
    match env.egl with
    | egl_outcome.assert_failed => startup.aborted
    | egl_outcome.exit_failure => startup.exited 1
    | egl_outcome.failed => startup.returned none
    | egl_outcome.ok =>
      if env.ion_open < 0 then startup.returned none
      else startup.returned (some { env.globals with dev_fd := env.ion_open })

/-- The buffer loop of `destroy_window`: `if (window->buffers[i].buffer)
buffer_free(&window->buffers[i]);`. -/
def destroy_window_buffers (window : window) : List (Fin NUM_BUFFERS) → List call
  | [] => []
  | i :: rest =>
    (if (window.buffers i).buffer ≠ 0 then buffer_free (window.buffers i) else []) ++
    destroy_window_buffers window rest

/-- `destroy_window`: the calls it makes. -/
def destroy_window (window : window) : List call :=
  (if window.callback ≠ 0 then [call.wl_callback_destroy window.callback] else []) ++
  destroy_window_buffers window (List.finRange NUM_BUFFERS) ++
  (if window.xdg_toplevel ≠ 0 then [call.xdg_toplevel_destroy window.xdg_toplevel]
    else []) ++
  (if window.xdg_surface ≠ 0 then [call.xdg_surface_destroy window.xdg_surface] else []) ++
  [call.wl_surface_destroy window.surface, call.free_window]

/-- One call of `wl_display_dispatch`: the events it delivers and what it returns. -/
structure dispatch where
  events : List event
  ret : Int
deriving DecidableEq, Repr

/-- How a run of `main` ends. -/
inductive main_result where
  /-- The process ends with this exit status, having made these calls since the window
  was created. -/
  | exited (status : Int) (trace : List call)
  /-- The process is ended by `abort()` or a failing `assert`. -/
  | aborted
  /-- The dispatch loop waits for events and none is left to deliver. -/
  | blocked

/-- How the dispatch loop of `main` ends. -/
inductive loop_result where
  | left (s : state)
  | aborted
  | blocked

/-- The loop `while (running && ret != -1) ret = wl_display_dispatch(...)`, over the calls
of `wl_display_dispatch` still to come; `ret` is the variable of that name. -/
def main_loop : state → Int → List dispatch → loop_result
  | s, ret, [] =>
    if s.running ≠ 0 ∧ ret ≠ -1 then loop_result.blocked else loop_result.left s
  | s, ret, d :: rest =>
    if s.running ≠ 0 ∧ ret ≠ -1 then
      match handle_all s d.events with
      | none => loop_result.aborted
      | some s1 => main_loop s1 d.ret rest
    else loop_result.left s

/-- What the outside world answers during a run of `main`. -/
structure main_env where
  /-- The argument vector, program name first. -/
  argv : List String
  /-- The outcomes met by `create_display`. -/
  display : display_env
  /-- The outcomes met by `create_window`. -/
  window : window_env
  /-- The events delivered by the roundtrip that follows `create_window`. -/
  roundtrip : List event
  /-- The proxy `wl_surface_frame` returns when `main` itself draws the first frame. -/
  first_frame_cb : Nat
  /-- The calls of `wl_display_dispatch`, in order. -/
  dispatches : List dispatch

/-- The state `main` holds once `create_window` has returned the window: the initial
values of the file-scope variable `running` (1) and of the static variables `step` (0)
and `step_dir` (1) of `redraw`, with the calls made so far. -/
def main_start (w : SimpleDmabufIon.window) (trace : List call) : state :=
  { running := 1, step := 0, step_dir := 1, window := w, trace := trace }

/-- The lines `window->initialized = true; if (!window->wait_for_configure)
redraw(window, NULL, 0);` of `main`; `frame_cb` is the proxy `wl_surface_frame` returns
if `redraw` is called.  The result `none` is `abort()`. -/
def main_first_frame (s1 : state) (frame_cb : Nat) : Option state :=
  if s1.window.wait_for_configure = false then
    redraw { s1 with window := { s1.window with initialized := true } } 0 frame_cb
  else some { s1 with window := { s1.window with initialized := true } }

/-- The function `main`. -/
def main (env : main_env) : main_result :=
  let ion_user_type := parse_args env.argv
  match create_display env.display with
  | startup.aborted => main_result.aborted
  | startup.exited status => main_result.exited status []
  | startup.returned none => main_result.exited 1 []
  | startup.returned (some display) =>
    match create_window ion_user_type env.window display 256 256 with
    | none => main_result.aborted
    | some out =>
      match out.window with
      | none => main_result.exited 1 out.trace
      | some window =>
        match handle_all (main_start window out.trace) env.roundtrip with
        | none => main_result.aborted
        | some s1 =>
          if s1.running = 0 then main_result.exited 1 s1.trace
          else
            match main_first_frame s1 env.first_frame_cb with
            | none => main_result.aborted
            | some s3 =>
              match main_loop s3 0 env.dispatches with
              | loop_result.aborted => main_result.aborted
              | loop_result.blocked => main_result.blocked
              | loop_result.left s4 =>
                main_result.exited 0
                  (s4.trace ++
                    [call.fprintf "simple-dmabuf-ion exiting\n"] ++
                    destroy_window s4.window ++ [call.destroy_display])

/-! ## Scenarios -/

/-- The number of frames drawn in a trace: `redraw` clears the colour buffer once. -/
def frames (trace : List call) : Nat :=
  trace.count call.glClear

/-- One frame of the end-to-end scenario: the frame callback runs `redraw`, and the
server releases the buffer just posted before anything else happens. -/
def frame_cycle (s : state) (frame_cb : Nat) : Option state :=
  match window_next_buffer s.window with
  | none => none
  | some i =>
    match handle s (event.frame_done frame_cb) with
    | none => none
    | some s1 => handle s1 (event.buffer_release i)

/-- The first `n` frames of the end-to-end scenario; frame `k` gets the callback proxy
`frame_cb k`. -/
def frame_cycles (frame_cb : Nat → Nat) : Nat → state → Option state
  | 0, s => some s
  | n + 1, s =>
    match frame_cycles frame_cb n s with
    | none => none
    | some s1 => frame_cycle s1 (frame_cb n)

/-- Outcomes in which every step succeeds and the one heap reported has the class
`ION_HEAP_TYPE_SYSTEM` and the identifier `heap_id`. -/
def env_all_succeed (heap_id : Nat) : dmabuf_env :=
  { heap_query := some [{ name := "system", type := ION_HEAP_TYPE_SYSTEM,
                          heap_id := heap_id }],
    alloc := some 5, mmap := 4096, create_image := 1, gen_texture := 1, gen_fbo := 1,
    fbo_status := GL_FRAMEBUFFER_COMPLETE }

/-- Outcomes in which the heap query itself fails. -/
def env_query_fails : dmabuf_env :=
  { env_all_succeed 0 with heap_query := none }

/-- Outcomes in which every step up to the mapping succeeds and `mmap` fails. -/
def env_mmap_fails : dmabuf_env :=
  { env_all_succeed 0 with mmap := MAP_FAILED }

/-- The reflected triangle wave of period 360 the specification describes, as the pair
(`step`, `step_dir`) after `n` frames: with `r = n mod 360` the step is `r` up to 180
and `360 - r` beyond, and the direction is `-1` from the peak until the return to 0. -/
def triangle_wave (n : Nat) : Int × Int :=
  (if n % 360 ≤ 180 then ((n % 360 : Nat) : Int) else 360 - ((n % 360 : Nat) : Int),
   if n % 360 < 180 then 1 else -1)

/-- A state as `main` has it when the window was just created with all outcomes as
`create_window` leaves them on success: nothing drawn yet. -/
def state.fresh (w : SimpleDmabufIon.window) : state :=
  { running := 1, step := 0, step_dir := 1, window := w, trace := [] }

/-- Two frames with a release in between: the events of a short run. -/
def two_frames : List event :=
  [event.frame_done 7, event.buffer_release 0, event.frame_done 8]

/-- A display on which the xdg shell and the dma-buf global were bound. -/
def display_with_shell : display :=
  { compositor := 1, shell := 2, fshell := 0, dmabuf := 3, dev_fd := 4 }

/-- Outcomes for `create_window` in which the window is allocated, the shell objects are
created, and slot `i` meets the outcomes `slots i`. -/
def window_env_with (slots : Fin NUM_BUFFERS → dmabuf_env) : window_env :=
  { zalloc_ok := true, surface := 10, xdg_surface := 11, xdg_toplevel := 12,
    buffers := slots }

/-- Outcomes for the three slots in which slot 1 meets a failing heap query and the
other slots meet nothing but success. -/
def slot_one_fails : Fin NUM_BUFFERS → dmabuf_env :=
  fun i => if i = 1 then env_query_fails else env_all_succeed 0

/-- Outcomes in which `create_display` returns the display `display_with_shell`. -/
def display_env_ok : display_env :=
  { zalloc_ok := true, connect := 1, globals := display_with_shell, egl := egl_outcome.ok,
    ion_open := 4 }

/-- A run of `main` without arguments in which the display and the window are created,
the three `wl_buffer`s are created during the roundtrip, and then the given calls of
`wl_display_dispatch` follow. -/
def main_env_with (dispatches : List dispatch) : main_env :=
  { argv := ["weston-simple-dmabuf-ion"], display := display_env_ok,
    window := window_env_with (fun _ => env_all_succeed 0),
    roundtrip := [event.create_succeeded 0 50, event.create_succeeded 1 51,
                  event.create_succeeded 2 52],
    first_frame_cb := 100, dispatches := dispatches }

/-- The argument strings whose leading numeral is the number 1: optional white space, an
optional `+`, any number of `0`, the digit `1`, and then either the end of the string or
a character that is not a decimal digit (whatever follows it). -/
def reads_as_one (s : String) : Prop :=
  ∃ (ws sign zeros rest : List Char),
    s.toList = ws ++ (sign ++ (zeros ++ '1' :: rest)) ∧
    (∀ c ∈ ws, isspace c = true) ∧ (sign = [] ∨ sign = ['+']) ∧ (∀ c ∈ zeros, c = '0') ∧
    (∀ c, rest.head? = some c → ¬ (48 ≤ c.toNat ∧ c.toNat ≤ 57))

/-- Outcomes for the three slots in which every step succeeds and the handles, mappings
and GPU names of slot `i` are numbered apart: handle `5 + i`, mapping `4096 * (i + 1)`,
image `21 + i`, texture `31 + i`, framebuffer `41 + i`. -/
def env_slot (i : Fin NUM_BUFFERS) : dmabuf_env :=
  { env_all_succeed 0 with
    alloc := some (5 + i.val), mmap := 4096 * (i.val + 1), create_image := 21 + i.val,
    gen_texture := 31 + i.val, gen_fbo := 41 + i.val }

/-- A run of `main` in which all three buffers are constructed, the server creates the
`wl_buffer` of slots 0 and 2 during the roundtrip, a configure event lets the first frame
be drawn, and then the server reports that the creation of the `wl_buffer` of slot 1
failed. -/
def main_env_create_failed : main_env :=
  { argv := ["weston-simple-dmabuf-ion"], display := display_env_ok,
    window := window_env_with env_slot,
    roundtrip := [event.create_succeeded 0 50, event.create_succeeded 2 52],
    first_frame_cb := 100,
    dispatches := [⟨[event.xdg_surface_configure 1 101], 1⟩,
                   ⟨[event.create_failed 1], 1⟩] }

/-- The calls recorded in a run that ended with an exit status (none otherwise). -/
def exit_trace : main_result → List call
  | main_result.exited _ trace => trace
  | main_result.aborted => []
  | main_result.blocked => []

/-- The state `main` would hold for a window of the xdg shell on which nothing has
happened yet: not initialised, waiting for a configure event, all buffers free. -/
def state.waiting : state :=
  state.fresh { window.zero with wait_for_configure := true }

theorem land_high_mask (x : Nat) (hx : x < 2 ^ 32) :
    x &&& (2 ^ 32 - 64) = 64 * (x / 64) := by
  apply Nat.eq_of_testBit_eq
  intro i
  have h1 : (2:Nat) ^ 32 - 64 = 2 ^ 6 * (2 ^ 26 - 1) := by norm_num
  have h2 : (64:Nat) = 2 ^ 6 := by norm_num
  rw [Nat.testBit_and, h1, h2, Nat.testBit_mul_pow_two, Nat.testBit_mul_pow_two,
    Nat.testBit_two_pow_sub_one, ← Nat.shiftRight_eq_div_pow, Nat.testBit_shiftRight]
  by_cases h6 : 6 ≤ i
  · have e : 6 + (i - 6) = i := by omega
    by_cases h32 : i < 32
    · have h26 : i - 6 < 26 := by omega
      simp [h6, h26, e]
    · have h26 : ¬ (i - 6 < 26) := by omega
      have hbit : x.testBit i = false := by
        apply Nat.testBit_lt_two_pow
        calc x < 2 ^ 32 := hx
          _ ≤ 2 ^ i := Nat.pow_le_pow_right (by norm_num) (by omega)
      simp [h6, h26, e, hbit]
  · simp [h6]

theorem SIZE_ALIGN_64 (x : Nat) (hx : x + 63 < 2 ^ 32) :
    SIZE_ALIGN x GPU_RGB_ALIGN_SZ = 64 * ((x + 63) / 64) := by
  unfold SIZE_ALIGN GPU_RGB_ALIGN_SZ U32
  have h1 : (64 + 2 ^ 32 - 1) % 2 ^ 32 = 63 := by norm_num
  have h2 : (x + 63) % 2 ^ 32 = x + 63 := Nat.mod_eq_of_lt hx
  have h3 : 2 ^ 32 - 1 - 63 = 2 ^ 32 - 64 := by norm_num
  rw [h1, h2, h3]
  exact land_high_mask (x + 63) hx

theorem to_u32_wrap_int_of_small (x : Int) (h0 : 0 ≤ x) (h1 : x < 2 ^ 31) :
    to_u32 (wrap_int x) = x.toNat := by
  unfold to_u32 wrap_int
  have e1 : (x + 2 ^ 31) % 2 ^ 32 = x + 2 ^ 31 := by
    apply Int.emod_eq_of_lt <;> omega
  have e2 : x % 2 ^ 32 = x := by
    apply Int.emod_eq_of_lt <;> omega
  rw [e1, add_sub_cancel_right, e2]

/-! ## C1: the stride -/

theorem create_fbo_for_buffer_stride (env : dmabuf_env) (buf : buffer) :
    (create_fbo_for_buffer env buf).2.1.stride = buf.stride := by
  unfold create_fbo_for_buffer
  simp only
  split_ifs <;> rfl

theorem create_dmabuf_buffer_stride (ty : Nat) (env : dmabuf_env) (buf : buffer)
    (w h fmt : Int) (heaps : List ion_heap_data) (fd : Nat)
    (hq : env.heap_query = some heaps)
    (hs : heap_scan ty heaps (MAX_HEAP_COUNT + 1) ≤ MAX_HEAP_COUNT)
    (ha : env.alloc = some fd) :
    (create_dmabuf_buffer ty env buf w h fmt).2.1.stride =
      SIZE_ALIGN (to_u32 (wrap_int (w * 4))) GPU_RGB_ALIGN_SZ := by
  have hs2 : ¬ heap_scan ty heaps (MAX_HEAP_COUNT + 1) > MAX_HEAP_COUNT := by omega
  unfold create_dmabuf_buffer
  simp only [hq, ha, hs2, if_false, create_dmabuf_buffer_error]
  split_ifs <;> simp only [create_fbo_for_buffer_stride]

/-- C1: for every width `w` with `0 ≤ w < 2 ^ 29`, the stride that `create_dmabuf_buffer`
stores (it does so once the heap was selected and the allocation call succeeded) is
`SIZE_ALIGN(w * 4, 64)`, and this value is a multiple of 64, is at least `4 * w`, and is
at most every multiple of 64 that is at least `4 * w`; it is 1024 for `w = 256` and 448
for `w = 100`. -/
theorem C1_stride_least_multiple_of_64 (w : Int) (h0 : 0 ≤ w) (h1 : w < 2 ^ 29) :
    (∀ (ty : Nat) (env : dmabuf_env) (buf : buffer) (h fmt : Int)
        (heaps : List ion_heap_data) (fd : Nat),
        env.heap_query = some heaps →
        heap_scan ty heaps (MAX_HEAP_COUNT + 1) ≤ MAX_HEAP_COUNT →
        env.alloc = some fd →
        (create_dmabuf_buffer ty env buf w h fmt).2.1.stride =
          SIZE_ALIGN (to_u32 (wrap_int (w * 4))) GPU_RGB_ALIGN_SZ) ∧
    64 ∣ SIZE_ALIGN (to_u32 (wrap_int (w * 4))) GPU_RGB_ALIGN_SZ ∧
    4 * w ≤ (SIZE_ALIGN (to_u32 (wrap_int (w * 4))) GPU_RGB_ALIGN_SZ : Int) ∧
    (∀ m : Nat, 64 ∣ m → 4 * w ≤ (m : Int) →
        SIZE_ALIGN (to_u32 (wrap_int (w * 4))) GPU_RGB_ALIGN_SZ ≤ m) ∧
    SIZE_ALIGN (to_u32 (wrap_int (256 * 4))) GPU_RGB_ALIGN_SZ = 1024 ∧
    SIZE_ALIGN (to_u32 (wrap_int (100 * 4))) GPU_RGB_ALIGN_SZ = 448 := by
  have hu : to_u32 (wrap_int (w * 4)) = (w * 4).toNat :=
    to_u32_wrap_int_of_small (w * 4) (by omega) (by omega)
  have hx : (w * 4).toNat + 63 < 2 ^ 32 := by omega
  have hS := SIZE_ALIGN_64 (w * 4).toNat hx
  rw [hu, hS]
  refine ⟨?_, ?_, ?_, ?_, ?_, ?_⟩
  · intro ty env buf h fmt heaps fd hq hs ha
    rw [create_dmabuf_buffer_stride ty env buf w h fmt heaps fd hq hs ha, hu, hS]
  · exact Dvd.intro _ rfl
  · omega
  · intro m hm hle
    obtain ⟨k, rfl⟩ := hm
    omega
  · decide
  · decide

theorem C1_stride_witness :
    (0 : Int) ≤ 100 ∧ (100 : Int) < 2 ^ 29 ∧
    64 ∣ SIZE_ALIGN (to_u32 (wrap_int (100 * 4))) GPU_RGB_ALIGN_SZ ∧
    4 * (100 : Int) ≤ (SIZE_ALIGN (to_u32 (wrap_int (100 * 4))) GPU_RGB_ALIGN_SZ : Int) :=
  ⟨by decide, by norm_num,
   (C1_stride_least_multiple_of_64 100 (by decide) (by norm_num)).2.1,
   (C1_stride_least_multiple_of_64 100 (by decide) (by norm_num)).2.2.1⟩

/-! ## C2: heap selection -/

theorem heap_scan_of_find (ty : Nat) (heaps : List ion_heap_data) (d : Nat) :
    heap_scan ty heaps d =
      match heaps.find? (fun h => h.type = ty) with
      | some h => h.heap_id
      | none => d := by
  induction heaps with
  | nil => rfl
  | cons h rest ih =>
    by_cases hty : h.type = ty
    · simp [heap_scan, List.find?, hty]
    · simp [heap_scan, List.find?, hty, ih]

/-- When the first descriptor of the requested class has an identifier of at most
`MAX_HEAP_COUNT`, the allocation request is made and carries `1 << heap_id`. -/
theorem create_dmabuf_buffer_heap_mask (ty : Nat) (env : dmabuf_env) (buf : buffer)
    (w h fmt : Int) (heaps : List ion_heap_data) (d : ion_heap_data)
    (hq : env.heap_query = some heaps)
    (hf : heaps.find? (fun x => x.type = ty) = some d)
    (hid : d.heap_id ≤ MAX_HEAP_COUNT) :
    call.ioctl_alloc (to_u64 (wrap_int (wrap_int (w * h) * 4))) (1 <<< d.heap_id) 0 ∈
      (create_dmabuf_buffer ty env buf w h fmt).2.2 := by
  have hs : heap_scan ty heaps (MAX_HEAP_COUNT + 1) = d.heap_id := by
    rw [heap_scan_of_find, hf]
  have hs2 : ¬ d.heap_id > MAX_HEAP_COUNT := by omega
  have hm : HEAP_MASK_FROM_TYPE d.heap_id = 1 <<< d.heap_id := by
    unfold HEAP_MASK_FROM_TYPE U32
    apply Nat.mod_eq_of_lt
    rw [Nat.one_shiftLeft]
    calc 2 ^ d.heap_id ≤ 2 ^ 6 := Nat.pow_le_pow_right (by norm_num) hid
      _ < 2 ^ 32 := by norm_num
  unfold create_dmabuf_buffer
  simp only [hq, hs, hs2, if_false, create_dmabuf_buffer_error, hm]
  split <;> (try split_ifs) <;> simp

/-- C2 (failing input): the heap query answers with one descriptor, of the requested
class `ION_HEAP_TYPE_SYSTEM` and with `heap_id = 7`.  The class occurs in the response,
yet the selection does not succeed: `create_dmabuf_buffer` reports "heap type does not
exists", makes no allocation request and returns -1. -/
theorem C2_heap_id_seven_not_selected :
    (env_all_succeed 7).heap_query =
      some [{ name := "system", type := ION_HEAP_TYPE_SYSTEM, heap_id := 7 }] ∧
    (create_dmabuf_buffer ION_HEAP_TYPE_SYSTEM (env_all_succeed 7) buffer.zero 256 256
      DRM_FORMAT_ARGB8888).1 = -1 ∧
    (create_dmabuf_buffer ION_HEAP_TYPE_SYSTEM (env_all_succeed 7) buffer.zero 256 256
      DRM_FORMAT_ARGB8888).2.2 =
      [call.ioctl_heap_query 6, call.fprintf "error: heap type does not exists\n",
       call.close 0] := by
  refine ⟨rfl, ?_, ?_⟩ <;> decide

/-! ## C5, C6: teardown -/

/-- C5: for every buffer whose framebuffer, texture, image and mapped pointer are set
(whatever its handle is), `buffer_free` makes exactly these release calls, each once and
in this order: framebuffer, texture, image, then `munmap` of the mapping, then `close` of
the handle; the only call that can stand between them is the destruction of the
display-side `wl_buffer`, after the image and before the unmap, when there is one. -/
theorem C5_buffer_free_order (buf : buffer) (hfbo : buf.gl_fbo ≠ 0)
    (htex : buf.gl_texture ≠ 0) (himg : buf.egl_image ≠ 0) (hmap : buf.vaddr ≠ 0) :
    buffer_free buf =
      [call.glDeleteFramebuffers buf.gl_fbo, call.glDeleteTextures buf.gl_texture,
       call.egl_destroy_image buf.egl_image] ++
      (if buf.buffer ≠ 0 then [call.wl_buffer_destroy buf.buffer] else []) ++
      [call.munmap buf.vaddr buf.ion_data.len, call.close buf.ion_data.fd] ∧
    (buffer_free buf).filter (fun c => decide (c ≠ call.wl_buffer_destroy buf.buffer)) =
      [call.glDeleteFramebuffers buf.gl_fbo, call.glDeleteTextures buf.gl_texture,
       call.egl_destroy_image buf.egl_image,
       call.munmap buf.vaddr buf.ion_data.len, call.close buf.ion_data.fd] := by
  unfold buffer_free
  by_cases hb : buf.buffer = 0 <;> simp [hfbo, htex, himg, hmap, hb]

theorem C5_buffer_free_order_witness :
    buffer_free
      { buffer.zero with gl_fbo := 3, gl_texture := 2, egl_image := 1, vaddr := 4096,
                         ion_data := { buffer.zero.ion_data with fd := 5, len := 262144 } } =
      [call.glDeleteFramebuffers 3, call.glDeleteTextures 2, call.egl_destroy_image 1,
       call.munmap 4096 262144, call.close 5] :=
  (C5_buffer_free_order
    { buffer.zero with gl_fbo := 3, gl_texture := 2, egl_image := 1, vaddr := 4096,
                       ion_data := { buffer.zero.ion_data with fd := 5, len := 262144 } }
    (by decide) (by decide) (by decide) (by decide)).1

/-- `buffer_free` closes the handle field whatever it holds. -/
theorem buffer_free_always_closes (buf : buffer) :
    call.close buf.ion_data.fd ∈ buffer_free buf := by
  unfold buffer_free
  simp

/-- C6 (failing inputs): on a buffer for which nothing was acquired (as `zalloc` left it,
the state in which `create_dmabuf_buffer` reaches its error label when the heap query
fails) `buffer_free` still calls `close`, on descriptor 0; and when `mmap` has failed, so
that no mapping was acquired, it calls `munmap` on `MAP_FAILED`. -/
theorem C6_buffer_free_releases_unacquired :
    buffer_free buffer.zero = [call.close 0] ∧
    (create_dmabuf_buffer ION_HEAP_TYPE_SYSTEM env_query_fails buffer.zero 256 256
      DRM_FORMAT_ARGB8888).2.2 =
      [call.ioctl_heap_query 6, call.fprintf "error: ION_IOC_HEAP_QUERY failed\n",
       call.close 0] ∧
    (create_dmabuf_buffer ION_HEAP_TYPE_SYSTEM env_mmap_fails buffer.zero 256 256
      DRM_FORMAT_ARGB8888).2.2 =
      [call.ioctl_heap_query 6, call.ioctl_alloc 262144 1 0, call.mmap 262144 5,
       call.fprintf "error: mmap failed\n", call.munmap MAP_FAILED 262144,
       call.close 5] := by
  refine ⟨?_, ?_, ?_⟩ <;> decide

/-! ## C3: the scan for a free buffer -/

theorem finRange_NUM_BUFFERS : List.finRange NUM_BUFFERS = [0, 1, 2] := by
  decide

/-- The scan of `window_next_buffer`, written out slot by slot. -/
theorem window_next_buffer_unrolled (w : window) :
    window_next_buffer w =
      if (w.buffers 0).busy = 0 then some 0
      else if (w.buffers 1).busy = 0 then some 1
      else if (w.buffers 2).busy = 0 then some 2
      else none := by
  unfold window_next_buffer
  rw [finRange_NUM_BUFFERS]
  simp only [List.find?]
  by_cases h0 : (w.buffers 0).busy = 0
  · simp [h0]
  · by_cases h1 : (w.buffers 1).busy = 0
    · simp [h0, h1]
    · by_cases h2 : (w.buffers 2).busy = 0
      · simp [h0, h1, h2]
      · simp [h0, h1, h2]

theorem fin3_cases (i : Fin NUM_BUFFERS) : i = 0 ∨ i = 1 ∨ i = 2 := by
  revert i
  decide

theorem forall_fin3 (P : Fin NUM_BUFFERS → Prop) : (∀ j, P j) ↔ (P 0 ∧ P 1 ∧ P 2) := by
  constructor
  · intro h
    exact ⟨h 0, h 1, h 2⟩
  · rintro ⟨h0, h1, h2⟩ j
    rcases fin3_cases j with rfl | rfl | rfl
    · exact h0
    · exact h1
    · exact h2

theorem window_next_buffer_some_iff (w : window) (i : Fin NUM_BUFFERS) :
    window_next_buffer w = some i ↔
      ((w.buffers i).busy = 0 ∧ ∀ j, j < i → (w.buffers j).busy ≠ 0) := by
  rw [window_next_buffer_unrolled, forall_fin3]
  have l01 : (0 : Fin NUM_BUFFERS) < 1 := by decide
  have l02 : (0 : Fin NUM_BUFFERS) < 2 := by decide
  have l12 : (1 : Fin NUM_BUFFERS) < 2 := by decide
  have n10 : ¬ (1 : Fin NUM_BUFFERS) < 0 := by decide
  have n20 : ¬ (2 : Fin NUM_BUFFERS) < 0 := by decide
  have n21 : ¬ (2 : Fin NUM_BUFFERS) < 1 := by decide
  have e01 : (0 : Fin NUM_BUFFERS) ≠ 1 := by decide
  have e02 : (0 : Fin NUM_BUFFERS) ≠ 2 := by decide
  have e12 : (1 : Fin NUM_BUFFERS) ≠ 2 := by decide
  rcases fin3_cases i with rfl | rfl | rfl <;>
  by_cases h0 : (w.buffers 0).busy = 0 <;>
  by_cases h1 : (w.buffers 1).busy = 0 <;>
  by_cases h2 : (w.buffers 2).busy = 0 <;>
  simp [h0, h1, h2, l01, l02, l12, n10, n20, n21, e01, e02, e12, e01.symm, e02.symm,
    e12.symm]

theorem window_next_buffer_none_iff (w : window) :
    window_next_buffer w = none ↔ ∀ i, (w.buffers i).busy ≠ 0 := by
  rw [window_next_buffer_unrolled]
  constructor
  · intro h i
    by_cases h0 : (w.buffers 0).busy = 0
    · simp [h0] at h
    · by_cases h1 : (w.buffers 1).busy = 0
      · simp [h0, h1] at h
      · by_cases h2 : (w.buffers 2).busy = 0
        · simp [h0, h1, h2] at h
        · rcases fin3_cases i with rfl | rfl | rfl
          · exact h0
          · exact h1
          · exact h2
  · intro h
    simp [h 0, h 1, h 2]

/-- What a call of `redraw` does when the scan returns slot `i`. -/
theorem redraw_of_next (s : state) (callback frame_cb : Nat) (i : Fin NUM_BUFFERS)
    (h : window_next_buffer s.window = some i) :
    redraw s callback frame_cb = some
      { running := s.running,
        step := (ramp_advance (s.step, s.step_dir)).1,
        step_dir := (ramp_advance (s.step, s.step_dir)).2,
        window := { s.window with
          callback := frame_cb,
          buffers := Function.update s.window.buffers i
            { s.window.buffers i with busy := 1 } },
        trace := s.trace ++
          [call.glBindFramebuffer (s.window.buffers i).gl_fbo,
           call.glClearColor (ramp_advance (s.step, s.step_dir)).1, call.glClear,
           call.glFinish, call.wl_surface_attach (s.window.buffers i).buffer,
           call.wl_surface_damage s.window.width s.window.height] ++
          (if callback ≠ 0 then [call.wl_callback_destroy callback] else []) ++
          [call.wl_surface_frame frame_cb, call.wl_surface_commit] } := by
  unfold redraw
  rw [h]

theorem redraw_none_iff (s : state) (callback frame_cb : Nat) :
    redraw s callback frame_cb = none ↔ window_next_buffer s.window = none := by
  unfold redraw
  cases h : window_next_buffer s.window <;> simp

/-- C3: in every state of the pool, `window_next_buffer` returns slot `i` exactly when
slot `i` is not busy and every slot before it is busy, and returns no buffer exactly when
all three slots are busy; `redraw` aborts exactly when `window_next_buffer` returns no
buffer, and otherwise binds the framebuffer of the returned buffer, draws, attaches that
buffer's `wl_buffer` to the surface, commits, and marks that buffer (and no other)
busy. -/
theorem C3_next_buffer_lowest_free (s : state) (callback frame_cb : Nat) :
    (∀ i, window_next_buffer s.window = some i ↔
      ((s.window.buffers i).busy = 0 ∧ ∀ j, j < i → (s.window.buffers j).busy ≠ 0)) ∧
    (window_next_buffer s.window = none ↔ ∀ i, (s.window.buffers i).busy ≠ 0) ∧
    (redraw s callback frame_cb = none ↔ window_next_buffer s.window = none) ∧
    (∀ i, window_next_buffer s.window = some i →
      ∃ s1, redraw s callback frame_cb = some s1 ∧
        s1.trace = s.trace ++
          [call.glBindFramebuffer (s.window.buffers i).gl_fbo,
           call.glClearColor s1.step, call.glClear, call.glFinish,
           call.wl_surface_attach (s.window.buffers i).buffer,
           call.wl_surface_damage s.window.width s.window.height] ++
          (if callback ≠ 0 then [call.wl_callback_destroy callback] else []) ++
          [call.wl_surface_frame frame_cb, call.wl_surface_commit] ∧
        s1.window.buffers i = { s.window.buffers i with busy := 1 } ∧
        ∀ j, j ≠ i → s1.window.buffers j = s.window.buffers j) := by
  refine ⟨window_next_buffer_some_iff s.window, window_next_buffer_none_iff s.window,
    redraw_none_iff s callback frame_cb, ?_⟩
  intro i hi
  refine ⟨_, redraw_of_next s callback frame_cb i hi, rfl, ?_, ?_⟩
  · simp
  · intro j hj
    simp [Function.update_noteq hj]

/-! ## C4: the ramp -/

theorem ramp_advance_triangle_wave (n : Nat) :
    ramp_advance (triangle_wave n) = triangle_wave (n + 1) := by
  unfold ramp_advance triangle_wave MAX_STEP
  have hlt : n % 360 < 360 := Nat.mod_lt _ (by norm_num)
  have hsucc : (n + 1) % 360 = if n % 360 = 359 then 0 else n % 360 + 1 := by
    split_ifs <;> omega
  rw [hsucc]
  generalize n % 360 = r at hlt
  by_cases h359 : r = 359
  · subst h359
    simp
  · simp only [h359, if_false]
    apply Prod.ext
    · simp only
      split_ifs <;> push_cast <;> omega
    · simp only
      split_ifs <;> first | rfl | omega

theorem frames_append (t u : List call) : frames (t ++ u) = frames t + frames u := by
  unfold frames
  exact List.count_append _ _ _

theorem redraw_ramp (s : state) (callback frame_cb : Nat) (s1 : state)
    (h : redraw s callback frame_cb = some s1) :
    (s1.step, s1.step_dir) = ramp_advance (s.step, s.step_dir) ∧
    frames s1.trace = frames s.trace + 1 := by
  cases hn : window_next_buffer s.window with
  | none =>
    rw [(redraw_none_iff s callback frame_cb).2 hn] at h
    cases h
  | some i =>
    rw [redraw_of_next s callback frame_cb i hn] at h
    cases h
    refine ⟨rfl, ?_⟩
    simp only [frames_append]
    by_cases hc : callback = 0 <;> simp [hc, frames]

/-- A listener either leaves the ramp and the number of frames alone, or is one call of
`redraw`. -/
theorem handle_ramp (s : state) (e : event) (s1 : state) (h : handle s e = some s1) :
    ((s1.step, s1.step_dir) = (s.step, s.step_dir) ∧ frames s1.trace = frames s.trace) ∨
    ((s1.step, s1.step_dir) = ramp_advance (s.step, s.step_dir) ∧
      frames s1.trace = frames s.trace + 1) := by
  cases e with
  | buffer_release i =>
    simp only [handle, Option.some.injEq] at h
    subst h
    exact Or.inl ⟨rfl, rfl⟩
  | frame_done frame_cb =>
    exact Or.inr (redraw_ramp s _ _ s1 h)
  | create_succeeded i nb =>
    simp only [handle, Option.some.injEq] at h
    subst h
    left
    simp [create_succeeded, state.map_buffer, frames_append, frames]
  | create_failed i =>
    simp only [handle, Option.some.injEq] at h
    subst h
    left
    simp [create_failed, state.map_buffer, frames_append, frames]
  | xdg_surface_configure serial frame_cb =>
    simp only [handle, xdg_surface_handle_configure] at h
    split_ifs at h with hc
    · cases hr : redraw { s with trace := s.trace ++ [call.xdg_surface_ack_configure serial] }
          0 frame_cb with
      | none => simp [hr] at h
      | some s2 =>
        simp only [hr, Option.map_some', Option.some.injEq] at h
        subst h
        have := redraw_ramp _ _ _ _ hr
        right
        simp only [frames_append] at this
        simpa [frames] using this
    · simp only [Option.map_some', Option.some.injEq] at h
      subst h
      left
      simp [frames_append, frames]
  | xdg_toplevel_configure =>
    simp only [handle, Option.some.injEq] at h
    subst h
    exact Or.inl ⟨rfl, rfl⟩
  | xdg_toplevel_close =>
    simp only [handle, Option.some.injEq] at h
    subst h
    exact Or.inl ⟨rfl, rfl⟩
  | signal_int =>
    simp only [handle, Option.some.injEq] at h
    subst h
    exact Or.inl ⟨rfl, rfl⟩

theorem handle_all_ramp (es : List event) :
    ∀ (s0 s : state) (k : Nat), (s0.step, s0.step_dir) = triangle_wave k →
      handle_all s0 es = some s →
      frames s0.trace ≤ frames s.trace ∧
      (s.step, s.step_dir) = triangle_wave (k + (frames s.trace - frames s0.trace)) := by
  induction es with
  | nil =>
    intro s0 s k hk h
    simp only [handle_all, Option.some.injEq] at h
    subst h
    simpa using hk
  | cons e es ih =>
    intro s0 s k hk h
    simp only [handle_all] at h
    cases he : handle s0 e with
    | none => simp [he] at h
    | some s1 =>
      simp only [he] at h
      rcases handle_ramp s0 e s1 he with ⟨hsame, hf⟩ | ⟨hadv, hf⟩
      · obtain ⟨hle, hres⟩ := ih s1 s k (hsame.trans hk) h
        rw [hf] at hle hres
        exact ⟨hle, hres⟩
      · have hk1 : (s1.step, s1.step_dir) = triangle_wave (k + 1) := by
          rw [hadv, hk, ramp_advance_triangle_wave]
        obtain ⟨hle, hres⟩ := ih s1 s (k + 1) hk1 h
        rw [hf] at hle hres
        refine ⟨by omega, ?_⟩
        rw [hres]
        congr 1
        omega

/-- The closed form of `triangle_wave`, component by component, with its bounds. -/
theorem triangle_wave_facts (n : Nat) (step dir : Int) (h : (step, dir) = triangle_wave n) :
    step = (if n % 360 ≤ 180 then ((n % 360 : Nat) : Int) else 360 - ((n % 360 : Nat) : Int)) ∧
    dir = (if n % 360 < 180 then 1 else -1) ∧ 0 ≤ step ∧ step ≤ 180 ∧
    (step = 180 ↔ n % 360 = 180) ∧ (step = 0 ↔ n % 360 = 0) := by
  unfold triangle_wave at h
  simp only [Prod.mk.injEq] at h
  obtain ⟨h1, h2⟩ := h
  have hlt : n % 360 < 360 := Nat.mod_lt _ (by norm_num)
  refine ⟨h1, h2, ?_, ?_, ?_, ?_⟩ <;> rw [h1] <;> split_ifs <;> omega

/-- C4: start from `step = 0` and `step_dir = +1` and let any sequence of events be
handled without an abort; let `n` be the number of calls of `redraw` made in it (each
draws one frame).  Then with `r = n mod 360` the step is `r` if `r ≤ 180` and `360 - r`
otherwise, so it lies in `[0, 180]`; the direction is `+1` while `r < 180` and `-1` from
`r = 180` on (hence `-1` for the first time after 180 calls); and a further call of
`redraw` turns the direction from `+1` to `-1` exactly when it brings the step to 180,
and from `-1` to `+1` exactly when it brings the step back to 0. -/
theorem C4_ramp_is_triangle_wave (s0 : state) (es : List event) (s : state) (n : Nat)
    (hstep : s0.step = 0) (hdir : s0.step_dir = 1)
    (hrun : handle_all s0 es = some s)
    (hn : n = frames s.trace - frames s0.trace) :
    s.step = (if n % 360 ≤ 180 then ((n % 360 : Nat) : Int)
              else 360 - ((n % 360 : Nat) : Int)) ∧
    0 ≤ s.step ∧ s.step ≤ 180 ∧
    s.step_dir = (if n % 360 < 180 then 1 else -1) ∧
    (∀ (callback frame_cb : Nat) (s1 : state), redraw s callback frame_cb = some s1 →
      ((s.step_dir = 1 ∧ s1.step_dir = -1) ↔ s1.step = 180) ∧
      ((s.step_dir = -1 ∧ s1.step_dir = 1) ↔ s1.step = 0)) := by
  have h0 : (s0.step, s0.step_dir) = triangle_wave 0 := by
    rw [hstep, hdir]
    rfl
  have hs : (s.step, s.step_dir) = triangle_wave n := by
    have := (handle_all_ramp es s0 s 0 h0 hrun).2
    rw [Nat.zero_add] at this
    rw [hn]
    exact this
  obtain ⟨f1, f2, f3, f4, -, -⟩ := triangle_wave_facts n s.step s.step_dir hs
  refine ⟨f1, f3, f4, f2, ?_⟩
  intro callback frame_cb s1 hr
  have hs1 : (s1.step, s1.step_dir) = triangle_wave (n + 1) := by
    rw [(redraw_ramp s callback frame_cb s1 hr).1, hs, ramp_advance_triangle_wave]
  obtain ⟨-, g2, -, -, g5, g6⟩ := triangle_wave_facts (n + 1) s1.step s1.step_dir hs1
  have d1 : ∀ (d : Int) (m : Nat), d = (if m % 360 < 180 then 1 else -1) →
      ((d = 1 ↔ m % 360 < 180) ∧ (d = -1 ↔ ¬ m % 360 < 180)) := by
    intro d m hd
    rw [hd]
    split_ifs with hm <;> simp [hm]
  obtain ⟨a1, a2⟩ := d1 _ _ f2
  obtain ⟨b1, b2⟩ := d1 _ _ g2
  rw [a1, a2, b1, b2, g5, g6]
  clear a1 a2 b1 b2 g5 g6 g2 f1 f2 f3 f4 hs hs1 hn h0 hr hrun
  omega

theorem C4_ramp_witness :
    (state.fresh window.zero).step = 0 ∧ (state.fresh window.zero).step_dir = 1 ∧
    ∃ s, handle_all (state.fresh window.zero) two_frames = some s ∧
      frames s.trace - frames (state.fresh window.zero).trace = 2 ∧
      s.step = 2 ∧ s.step_dir = 1 :=
  have hsome : (handle_all (state.fresh window.zero) two_frames).isSome = true := by
    decide
  have hrun : handle_all (state.fresh window.zero) two_frames =
      some ((handle_all (state.fresh window.zero) two_frames).get hsome) :=
    (Option.some_get hsome).symm
  have hn : 2 = frames ((handle_all (state.fresh window.zero) two_frames).get hsome).trace -
      frames (state.fresh window.zero).trace := rfl
  have h := C4_ramp_is_triangle_wave (state.fresh window.zero) two_frames
    ((handle_all (state.fresh window.zero) two_frames).get hsome) 2 rfl rfl hrun hn
  ⟨rfl, rfl, _, hrun, hn.symm, by simpa using h.1, by simpa using h.2.2.2.1⟩

/-! ## C7: the pool after construction -/

theorem create_fbo_for_buffer_busy (env : dmabuf_env) (buf : buffer) :
    (create_fbo_for_buffer env buf).2.1.busy = buf.busy := by
  unfold create_fbo_for_buffer
  simp only
  split_ifs <;> rfl

theorem create_dmabuf_buffer_busy (ty : Nat) (env : dmabuf_env) (buf : buffer)
    (w h fmt : Int) : (create_dmabuf_buffer ty env buf w h fmt).2.1.busy = buf.busy := by
  unfold create_dmabuf_buffer
  simp only [create_dmabuf_buffer_error]
  cases env.heap_query with
  | none => rfl
  | some heaps =>
    simp only
    by_cases hs : heap_scan ty heaps (MAX_HEAP_COUNT + 1) > MAX_HEAP_COUNT
    · simp only [hs, if_true]
    · simp only [hs, if_false]
      cases env.alloc with
      | none => rfl
      | some fd =>
        simp only
        by_cases hfd : fd = 0
        · simp only [hfd, if_true]
        · simp only [hfd, if_false]
          by_cases hm : env.mmap = MAP_FAILED
          · simp only [hm, if_true]
          · simp only [hm, if_false]
            split_ifs <;> simp only [create_fbo_for_buffer_busy]

theorem create_window_buffers_busy (ty : Nat) (env : Fin NUM_BUFFERS → dmabuf_env)
    (w h : Int) (slots : List (Fin NUM_BUFFERS)) :
    ∀ acc : pool_build, (∀ i, (acc.buffers i).busy = 0) →
      ∀ i, ((create_window_buffers ty env w h slots acc).buffers i).busy = 0 := by
  induction slots with
  | nil =>
    intro acc hacc i
    exact hacc i
  | cons j rest ih =>
    intro acc hacc i
    have hupd : ∀ k, (Function.update acc.buffers j
        (create_dmabuf_buffer ty (env j) (acc.buffers j) w h DRM_FORMAT_ARGB8888).2.1 k).busy
          = 0 := by
      intro k
      by_cases hk : k = j
      · subst hk
        rw [Function.update_same, create_dmabuf_buffer_busy]
        exact hacc k
      · rw [Function.update_noteq hk]
        exact hacc k
    simp only [create_window_buffers]
    split_ifs
    · exact hupd i
    · exact ih _ hupd i

theorem create_window_surface_buffers (env : window_env) (d : display) (w0 : window)
    (r : window × List call) (h : create_window_surface env d w0 = some r) :
    r.1.buffers = w0.buffers := by
  unfold create_window_surface at h
  split_ifs at h <;> cases h <;> rfl

theorem create_window_busy (ty : Nat) (env : window_env) (d : display) (w h : Int)
    (out : create_window_out) (win : window)
    (hc : create_window ty env d w h = some out) (hw : out.window = some win) :
    ∀ i, (win.buffers i).busy = 0 := by
  unfold create_window at hc
  split_ifs at hc with hz
  · cases hc
    cases hw
  · cases hsurf : create_window_surface env d
        { window.zero with
          callback := 0, width := w, height := h, surface := env.surface } with
    | none =>
      rw [hsurf] at hc
      cases hc
    | some w1 =>
      rw [hsurf] at hc
      simp only [Option.some.injEq] at hc
      subst hc
      simp only at hw
      split_ifs at hw
      cases hw
      apply create_window_buffers_busy
      intro i
      rw [create_window_surface_buffers env d _ w1 hsurf]
      rfl

/-- The busy flags after a call of `redraw` for which the scan returned slot `i`. -/
theorem redraw_busy (s : state) (callback frame_cb : Nat) (i : Fin NUM_BUFFERS)
    (h : window_next_buffer s.window = some i) :
    ∃ s1, redraw s callback frame_cb = some s1 ∧
      ∀ j, (s1.window.buffers j).busy = if j = i then 1 else (s.window.buffers j).busy := by
  refine ⟨_, redraw_of_next s callback frame_cb i h, ?_⟩
  intro j
  by_cases hj : j = i
  · subst hj
    simp
  · simp [Function.update_noteq hj, hj]

/-- From a pool of three free buffers, three calls of `redraw` post slots 0, 1 and 2 in
this order and the fourth aborts. -/
theorem redraw_fills_pool (s : state) (hfree : ∀ i, (s.window.buffers i).busy = 0)
    (c1 f1 c2 f2 c3 f3 c4 f4 : Nat) :
    ∃ s1 s2 s3,
      window_next_buffer s.window = some 0 ∧ redraw s c1 f1 = some s1 ∧
      ((s1.window.buffers 0).busy = 1 ∧ (s1.window.buffers 1).busy = 0 ∧
        (s1.window.buffers 2).busy = 0) ∧
      window_next_buffer s1.window = some 1 ∧ redraw s1 c2 f2 = some s2 ∧
      ((s2.window.buffers 0).busy = 1 ∧ (s2.window.buffers 1).busy = 1 ∧
        (s2.window.buffers 2).busy = 0) ∧
      window_next_buffer s2.window = some 2 ∧ redraw s2 c3 f3 = some s3 ∧
      (∀ i, (s3.window.buffers i).busy = 1) ∧
      window_next_buffer s3.window = none ∧ redraw s3 c4 f4 = none := by
  have e01 : (0 : Fin NUM_BUFFERS) ≠ 1 := by decide
  have e02 : (0 : Fin NUM_BUFFERS) ≠ 2 := by decide
  have e12 : (1 : Fin NUM_BUFFERS) ≠ 2 := by decide
  have n0 : window_next_buffer s.window = some 0 := by
    rw [window_next_buffer_unrolled]
    simp [hfree 0]
  obtain ⟨s1, r1, b1⟩ := redraw_busy s c1 f1 0 n0
  have p1 : (s1.window.buffers 0).busy = 1 ∧ (s1.window.buffers 1).busy = 0 ∧
      (s1.window.buffers 2).busy = 0 := by
    refine ⟨?_, ?_, ?_⟩
    · rw [b1 0]
      simp
    · rw [b1 1]
      simp [e01.symm, hfree 1]
    · rw [b1 2]
      simp [e02.symm, hfree 2]
  have n1 : window_next_buffer s1.window = some 1 := by
    rw [window_next_buffer_unrolled]
    simp [p1.1, p1.2.1]
  obtain ⟨s2, r2, b2⟩ := redraw_busy s1 c2 f2 1 n1
  have p2 : (s2.window.buffers 0).busy = 1 ∧ (s2.window.buffers 1).busy = 1 ∧
      (s2.window.buffers 2).busy = 0 := by
    refine ⟨?_, ?_, ?_⟩
    · rw [b2 0]
      simp [e01, p1.1]
    · rw [b2 1]
      simp
    · rw [b2 2]
      simp [e12.symm, p1.2.2]
  have n2 : window_next_buffer s2.window = some 2 := by
    rw [window_next_buffer_unrolled]
    simp [p2.1, p2.2.1, p2.2.2]
  obtain ⟨s3, r3, b3⟩ := redraw_busy s2 c3 f3 2 n2
  have p3 : ∀ i, (s3.window.buffers i).busy = 1 := by
    intro i
    rw [b3 i]
    rcases fin3_cases i with rfl | rfl | rfl
    · simp [e02, p2.1]
    · simp [e12, p2.2.1]
    · simp
  have n3 : window_next_buffer s3.window = none := by
    rw [window_next_buffer_none_iff]
    intro i
    rw [p3 i]
    decide
  exact ⟨s1, s2, s3, n0, r1, p1, n1, r2, p2, n2, r3, p3, n3,
    (redraw_none_iff s3 c4 f4).2 n3⟩

/-- C7: a window that `create_window` returns has `busy = 0` in all three buffers; and
in any state holding such a window, with no `buffer_release` in between, the first three
calls of `redraw` succeed and post slots 0, 1 and 2 in this order (each call finds that
slot as the next free one and leaves it busy), all three buffers are busy afterwards,
and the fourth call of `redraw` finds no free buffer and aborts. -/
theorem C7_fresh_pool_three_posts (ty : Nat) (env : window_env) (d : display) (w h : Int)
    (out : create_window_out) (win : window)
    (hc : create_window ty env d w h = some out) (hw : out.window = some win) :
    (∀ i, (win.buffers i).busy = 0) ∧
    (∀ (s : state), s.window = win → ∀ (c1 f1 c2 f2 c3 f3 c4 f4 : Nat),
      ∃ s1 s2 s3,
        window_next_buffer s.window = some 0 ∧ redraw s c1 f1 = some s1 ∧
        ((s1.window.buffers 0).busy = 1 ∧ (s1.window.buffers 1).busy = 0 ∧
          (s1.window.buffers 2).busy = 0) ∧
        window_next_buffer s1.window = some 1 ∧ redraw s1 c2 f2 = some s2 ∧
        ((s2.window.buffers 0).busy = 1 ∧ (s2.window.buffers 1).busy = 1 ∧
          (s2.window.buffers 2).busy = 0) ∧
        window_next_buffer s2.window = some 2 ∧ redraw s2 c3 f3 = some s3 ∧
        (∀ i, (s3.window.buffers i).busy = 1) ∧
        window_next_buffer s3.window = none ∧ redraw s3 c4 f4 = none) := by
  have hfree := create_window_busy ty env d w h out win hc hw
  refine ⟨hfree, ?_⟩
  intro s hs c1 f1 c2 f2 c3 f3 c4 f4
  exact redraw_fills_pool s (by rw [hs]; exact hfree) c1 f1 c2 f2 c3 f3 c4 f4

theorem C7_fresh_pool_witness :
    ∃ out win,
      create_window ION_HEAP_TYPE_SYSTEM (window_env_with (fun _ => env_all_succeed 0))
        display_with_shell 256 256 = some out ∧
      out.window = some win ∧ ∀ i, (win.buffers i).busy = 0 :=
  have h1 : (create_window ION_HEAP_TYPE_SYSTEM
      (window_env_with (fun _ => env_all_succeed 0)) display_with_shell 256 256).isSome
        = true := by decide
  have hc := (Option.some_get h1).symm
  have h2 : ((create_window ION_HEAP_TYPE_SYSTEM
      (window_env_with (fun _ => env_all_succeed 0)) display_with_shell 256
        256).get h1).window.isSome = true := rfl
  have hw := (Option.some_get h2).symm
  ⟨_, _, hc, hw,
    (C7_fresh_pool_three_posts ION_HEAP_TYPE_SYSTEM
      (window_env_with (fun _ => env_all_succeed 0)) display_with_shell 256 256 _ _
      hc hw).1⟩

/-! ## C8: draw and release, frame after frame -/

/-- One frame of the end-to-end scenario from a pool of three free buffers. -/
theorem frame_cycle_of_free (s : state) (frame_cb : Nat)
    (hfree : ∀ j, (s.window.buffers j).busy = 0) :
    ∃ i s1 s2,
      window_next_buffer s.window = some i ∧
      redraw s s.window.callback frame_cb = some s1 ∧
      (s.window.buffers i).busy = 0 ∧ (s1.window.buffers i).busy = 1 ∧
      handle s1 (event.buffer_release i) = some s2 ∧
      (s2.window.buffers i).busy = 0 ∧
      (∀ j, (s2.window.buffers j).busy = 0) ∧
      frame_cycle s frame_cb = some s2 := by
  have n0 : window_next_buffer s.window = some 0 := by
    rw [window_next_buffer_unrolled]
    simp [hfree 0]
  obtain ⟨s1, r1, b1⟩ := redraw_busy s s.window.callback frame_cb 0 n0
  have hrel : ∀ j, ((s1.map_buffer 0 buffer_release).window.buffers j).busy = 0 := by
    intro j
    by_cases hj : j = 0
    · subst hj
      simp [state.map_buffer, buffer_release]
    · simp [state.map_buffer, Function.update_noteq hj, b1 j, hj, hfree j]
  refine ⟨0, s1, s1.map_buffer 0 buffer_release, n0, r1, hfree 0, ?_, rfl, hrel 0, hrel, ?_⟩
  · rw [b1 0]
    simp
  · unfold frame_cycle
    rw [n0]
    simp only [handle, r1]

/-- C8: start from a pool of three free buffers and run `N` frames, each a `redraw`
followed at once by `buffer_release` of the buffer it posted.  The run does not abort
and ends with all three buffers free; and in every frame `k < N` the pool is all free
beforehand, `redraw` finds a free buffer and succeeds, the busy flag of the buffer it
posts goes from 0 to 1, the release sets it back to 0, and all three buffers are free
again after the frame. -/
theorem C8_draw_release_cycles (frame_cb : Nat → Nat) (s : state)
    (hfree : ∀ j, (s.window.buffers j).busy = 0) (N : Nat) :
    (∃ sN, frame_cycles frame_cb N s = some sN ∧ ∀ j, (sN.window.buffers j).busy = 0) ∧
    (∀ k, k < N → ∃ sk i s1 s2,
      frame_cycles frame_cb k s = some sk ∧
      (∀ j, (sk.window.buffers j).busy = 0) ∧
      window_next_buffer sk.window = some i ∧
      redraw sk sk.window.callback (frame_cb k) = some s1 ∧
      (sk.window.buffers i).busy = 0 ∧ (s1.window.buffers i).busy = 1 ∧
      handle s1 (event.buffer_release i) = some s2 ∧
      (s2.window.buffers i).busy = 0 ∧
      (∀ j, (s2.window.buffers j).busy = 0) ∧
      frame_cycles frame_cb (k + 1) s = some s2) := by
  have run : ∀ n, ∃ sn, frame_cycles frame_cb n s = some sn ∧
      ∀ j, (sn.window.buffers j).busy = 0 := by
    intro n
    induction n with
    | zero => exact ⟨s, rfl, hfree⟩
    | succ n ih =>
      obtain ⟨sn, hsn, hfn⟩ := ih
      obtain ⟨i, s1, s2, -, -, -, -, -, -, hf2, hcyc⟩ :=
        frame_cycle_of_free sn (frame_cb n) hfn
      refine ⟨s2, ?_, hf2⟩
      simp only [frame_cycles, hsn, hcyc]
  refine ⟨run N, ?_⟩
  intro k _
  obtain ⟨sk, hsk, hfk⟩ := run k
  obtain ⟨i, s1, s2, hn, hr, hb0, hb1, hrel, hb2, hf2, hcyc⟩ :=
    frame_cycle_of_free sk (frame_cb k) hfk
  refine ⟨sk, i, s1, s2, hsk, hfk, hn, hr, hb0, hb1, hrel, hb2, hf2, ?_⟩
  simp only [frame_cycles, hsk, hcyc]

theorem C8_draw_release_witness :
    (∀ j, ((state.fresh window.zero).window.buffers j).busy = 0) ∧
    ∃ s5, frame_cycles (fun k => k + 1) 5 (state.fresh window.zero) = some s5 ∧
      ∀ j, (s5.window.buffers j).busy = 0 :=
  ⟨fun _ => rfl,
   (C8_draw_release_cycles (fun k => k + 1) (state.fresh window.zero) (fun _ => rfl) 5).1⟩

/-! ## C9: the result of `create_dmabuf_buffer` -/

theorem create_fbo_for_buffer_ok (env : dmabuf_env) (buf : buffer) :
    (create_fbo_for_buffer env buf).1 = true ↔
      (env.create_image ≠ EGL_NO_IMAGE ∧ env.fbo_status = GL_FRAMEBUFFER_COMPLETE) := by
  unfold create_fbo_for_buffer
  simp only
  by_cases hi : env.create_image = EGL_NO_IMAGE
  · simp [hi]
  · by_cases hf : env.fbo_status = GL_FRAMEBUFFER_COMPLETE
    · simp [hi, hf]
    · simp [hi, hf]

/-- The return value of `create_dmabuf_buffer` is 0 or -1, and it is 0 exactly when the
query succeeds, the loop leaves a `heap_id` of at most `MAX_HEAP_COUNT`, the allocation
succeeds with a non-zero handle, the mapping succeeds, the image is imported and the
framebuffer is complete. -/
theorem create_dmabuf_buffer_ret (ty : Nat) (env : dmabuf_env) (buf : buffer)
    (w h fmt : Int) :
    ((create_dmabuf_buffer ty env buf w h fmt).1 = 0 ∨
      (create_dmabuf_buffer ty env buf w h fmt).1 = -1) ∧
    ((create_dmabuf_buffer ty env buf w h fmt).1 = 0 ↔
      ∃ heaps fd, env.heap_query = some heaps ∧
        heap_scan ty heaps (MAX_HEAP_COUNT + 1) ≤ MAX_HEAP_COUNT ∧
        env.alloc = some fd ∧ fd ≠ 0 ∧ env.mmap ≠ MAP_FAILED ∧
        env.create_image ≠ EGL_NO_IMAGE ∧ env.fbo_status = GL_FRAMEBUFFER_COMPLETE) := by
  unfold create_dmabuf_buffer
  simp only [create_dmabuf_buffer_error]
  cases env.heap_query with
  | none => simp
  | some heaps =>
    simp only
    by_cases hs : heap_scan ty heaps (MAX_HEAP_COUNT + 1) > MAX_HEAP_COUNT
    · have hs2 : ¬ heap_scan ty heaps (MAX_HEAP_COUNT + 1) ≤ MAX_HEAP_COUNT := by omega
      simp [hs, hs2]
    · have hs2 : heap_scan ty heaps (MAX_HEAP_COUNT + 1) ≤ MAX_HEAP_COUNT := by omega
      simp only [hs, if_false]
      cases env.alloc with
      | none => simp
      | some fd =>
        simp only
        by_cases hfd : fd = 0
        · simp [hfd]
        · simp only [hfd, if_false]
          by_cases hm : env.mmap = MAP_FAILED
          · simp [hm]
          · simp only [hm, if_false]
            have hok := create_fbo_for_buffer_ok env
              { buffer := buf.buffer, busy := buf.busy,
                ion_data :=
                  { len := to_u64 (wrap_int (wrap_int (w * h) * 4)),
                    heap_id_mask :=
                      HEAP_MASK_FROM_TYPE (heap_scan ty heaps (MAX_HEAP_COUNT + 1)),
                    flags := 0, fd := fd, unused := buf.ion_data.unused },
                vaddr := env.mmap, width := w, height := h,
                stride := SIZE_ALIGN (to_u32 (wrap_int (w * 4))) GPU_RGB_ALIGN_SZ,
                format := fmt, egl_image := buf.egl_image, gl_texture := buf.gl_texture,
                gl_fbo := buf.gl_fbo }
            split_ifs with hr
            · refine ⟨Or.inr rfl, ?_, ?_⟩
              · intro h0
                simp at h0
              · rintro ⟨_, _, _, _, _, _, _, hi, hf⟩
                have ht := hok.2 ⟨hi, hf⟩
                rw [hr] at ht
                cases ht
            · have hy : env.create_image ≠ EGL_NO_IMAGE ∧
                  env.fbo_status = GL_FRAMEBUFFER_COMPLETE := by
                rw [← hok]
                simpa using hr
              exact ⟨Or.inl rfl, fun _ => ⟨heaps, fd, rfl, hs2, rfl, hfd, hm, hy.1, hy.2⟩,
                fun _ => rfl⟩

/-- The return value of `create_dmabuf_buffer` does not depend on the buffer passed. -/
theorem create_dmabuf_buffer_ret_indep (ty : Nat) (env : dmabuf_env) (b1 b2 : buffer)
    (w h fmt : Int) :
    (create_dmabuf_buffer ty env b1 w h fmt).1 = (create_dmabuf_buffer ty env b2 w h fmt).1 := by
  obtain ⟨c1, i1⟩ := create_dmabuf_buffer_ret ty env b1 w h fmt
  obtain ⟨c2, i2⟩ := create_dmabuf_buffer_ret ty env b2 w h fmt
  by_cases hc : (create_dmabuf_buffer ty env b1 w h fmt).1 = 0
  · rw [hc, i2.2 (i1.1 hc)]
  · have hc2 : ¬ (create_dmabuf_buffer ty env b2 w h fmt).1 = 0 :=
      fun h2 => hc (i1.2 (i2.1 h2))
    rcases c1 with c1 | c1
    · exact absurd c1 hc
    · rcases c2 with c2 | c2
      · exact absurd c2 hc2
      · rw [c1, c2]

/-- C9 (failing input): the heap query succeeds and reports a heap of the requested
class, the allocation succeeds with the non-zero handle 5, the mapping succeeds, the
image import returns an image and the framebuffer is complete; yet, the heap found
having `heap_id = 7`, `create_dmabuf_buffer` returns -1 and makes no allocation
request. -/
theorem C9_every_step_succeeds_yet_error :
    (∃ heaps d, (env_all_succeed 7).heap_query = some heaps ∧ d ∈ heaps ∧
      d.type = ION_HEAP_TYPE_SYSTEM) ∧
    (∃ fd, (env_all_succeed 7).alloc = some fd ∧ fd ≠ 0) ∧
    (env_all_succeed 7).mmap ≠ MAP_FAILED ∧
    (env_all_succeed 7).create_image ≠ EGL_NO_IMAGE ∧
    (env_all_succeed 7).fbo_status = GL_FRAMEBUFFER_COMPLETE ∧
    create_dmabuf_buffer ION_HEAP_TYPE_SYSTEM (env_all_succeed 7) buffer.zero 256 256
      DRM_FORMAT_ARGB8888 =
      (-1, { buffer.zero with width := 256, height := 256, format := DRM_FORMAT_ARGB8888 },
       [call.ioctl_heap_query 6, call.fprintf "error: heap type does not exists\n",
        call.close 0]) := by
  refine ⟨⟨_, _, rfl, List.mem_singleton.2 rfl, rfl⟩, ⟨5, rfl, by decide⟩, by decide,
    by decide, rfl, by decide⟩

/-! ## C10: all three slots or no window -/

/-- The buffer loop of `create_window`, slot by slot: the calls of
`create_dmabuf_buffer` are made in slot order and stop after the first that fails. -/
theorem create_window_buffers_rets (ty : Nat) (env : Fin NUM_BUFFERS → dmabuf_env)
    (w h : Int) (b0 : Fin NUM_BUFFERS → buffer) (t : List call) (r0 r1 r2 : Int)
    (h0 : r0 = (create_dmabuf_buffer ty (env 0) buffer.zero w h DRM_FORMAT_ARGB8888).1)
    (h1 : r1 = (create_dmabuf_buffer ty (env 1) buffer.zero w h DRM_FORMAT_ARGB8888).1)
    (h2 : r2 = (create_dmabuf_buffer ty (env 2) buffer.zero w h DRM_FORMAT_ARGB8888).1) :
    (create_window_buffers ty env w h (List.finRange NUM_BUFFERS)
        { completed := true, buffers := b0, rets := [], trace := t }).rets =
      (if r0 < 0 then [r0] else if r1 < 0 then [r0, r1] else [r0, r1, r2]) ∧
    (create_window_buffers ty env w h (List.finRange NUM_BUFFERS)
        { completed := true, buffers := b0, rets := [], trace := t }).completed =
      (if r0 < 0 then false else if r1 < 0 then false else if r2 < 0 then false
       else true) := by
  rw [finRange_NUM_BUFFERS]
  simp only [create_window_buffers]
  rw [create_dmabuf_buffer_ret_indep ty (env 0) _ buffer.zero, ← h0]
  by_cases c0 : r0 < 0
  · simp only [c0, if_true]
    simp
  · simp only [c0, if_false]
    rw [create_dmabuf_buffer_ret_indep ty (env 1) _ buffer.zero, ← h1]
    by_cases c1 : r1 < 0
    · simp only [c1, if_true]
      simp
    · simp only [c1, if_false]
      rw [create_dmabuf_buffer_ret_indep ty (env 2) _ buffer.zero, ← h2]
      by_cases c2 : r2 < 0
      · simp only [c2, if_true]
        simp
      · simp only [c2, if_false]
        simp

/-- What `create_window` leaves behind when it gets past the allocation of the window
and the shell branch: the loop decides. -/
theorem create_window_out_eq (ty : Nat) (env : window_env) (d : display) (w h : Int)
    (out : create_window_out) (hc : create_window ty env d w h = some out)
    (hz : env.zalloc_ok = true) :
    ∃ (b0 : Fin NUM_BUFFERS → buffer) (t : List call) (w1 : window),
      out.rets = (create_window_buffers ty env.buffers w h (List.finRange NUM_BUFFERS)
        { completed := true, buffers := b0, rets := [], trace := t }).rets ∧
      out.window =
        (if (create_window_buffers ty env.buffers w h (List.finRange NUM_BUFFERS)
            { completed := true, buffers := b0, rets := [], trace := t }).completed = false
         then none else some w1) := by
  unfold create_window at hc
  rw [if_neg (by simp [hz])] at hc
  cases hsurf : create_window_surface env d
      { window.zero with
        callback := 0, width := w, height := h, surface := env.surface } with
  | none =>
    rw [hsurf] at hc
    cases hc
  | some w1 =>
    rw [hsurf] at hc
    simp only [Option.some.injEq] at hc
    subst hc
    exact ⟨w1.1.buffers, w1.2, _, rfl, rfl⟩

/-- The part of C10 that concerns `create_window` alone. -/
theorem create_window_all_or_nothing (ty : Nat) (env : window_env) (d : display)
    (w h : Int) (out : create_window_out) (hc : create_window ty env d w h = some out) :
    out.rets <+:
      [(create_dmabuf_buffer ty (env.buffers 0) buffer.zero w h DRM_FORMAT_ARGB8888).1,
       (create_dmabuf_buffer ty (env.buffers 1) buffer.zero w h DRM_FORMAT_ARGB8888).1,
       (create_dmabuf_buffer ty (env.buffers 2) buffer.zero w h DRM_FORMAT_ARGB8888).1] ∧
    ((∃ win, out.window = some win) ↔ out.rets = [0, 0, 0]) ∧
    (∀ (i : Nat) (r : Int), out.rets[i]? = some r → r < 0 →
      out.rets.length = i + 1 ∧ out.window = none) ∧
    (env.zalloc_ok = true →
      ((∃ win, out.window = some win) ↔
        ((create_dmabuf_buffer ty (env.buffers 0) buffer.zero w h DRM_FORMAT_ARGB8888).1 = 0 ∧
         (create_dmabuf_buffer ty (env.buffers 1) buffer.zero w h DRM_FORMAT_ARGB8888).1 = 0 ∧
         (create_dmabuf_buffer ty (env.buffers 2) buffer.zero w h DRM_FORMAT_ARGB8888).1 =
           0))) := by
  by_cases hz : env.zalloc_ok = true
  · obtain ⟨b0, t, w1, hr, hw⟩ := create_window_out_eq ty env d w h out hc hz
    obtain ⟨e1, e2⟩ := create_window_buffers_rets ty env.buffers w h b0 t _ _ _ rfl rfl rfl
    rw [e1] at hr
    rw [e2] at hw
    obtain ⟨c0, -⟩ := create_dmabuf_buffer_ret ty (env.buffers 0) buffer.zero w h
      DRM_FORMAT_ARGB8888
    obtain ⟨c1, -⟩ := create_dmabuf_buffer_ret ty (env.buffers 1) buffer.zero w h
      DRM_FORMAT_ARGB8888
    obtain ⟨c2, -⟩ := create_dmabuf_buffer_ret ty (env.buffers 2) buffer.zero w h
      DRM_FORMAT_ARGB8888
    generalize (create_dmabuf_buffer ty (env.buffers 0) buffer.zero w h
      DRM_FORMAT_ARGB8888).1 = r0 at *
    generalize (create_dmabuf_buffer ty (env.buffers 1) buffer.zero w h
      DRM_FORMAT_ARGB8888).1 = r1 at *
    generalize (create_dmabuf_buffer ty (env.buffers 2) buffer.zero w h
      DRM_FORMAT_ARGB8888).1 = r2 at *
    rw [hr, hw]
    clear hr hw e1 e2 hc
    rcases c0 with rfl | rfl <;> rcases c1 with rfl | rfl <;> rcases c2 with rfl | rfl <;>
      norm_num
    all_goals (repeat' constructor)
    all_goals
      first
        | (intro i r hget hneg
           rcases i with _ | _ | _ | i <;> simp at hget <;> omega)
        | (intros
           exact Option.noConfusion)
  · have hz2 : env.zalloc_ok = false := by simpa using hz
    unfold create_window at hc
    rw [if_pos hz2] at hc
    cases hc
    exact ⟨⟨_, rfl⟩, by simp, by simp, fun h1 => absurd h1 hz⟩

/-- When `create_display` returns a display and `create_window` returns `NULL`, `main`
returns 1. -/
theorem main_without_window (menv : main_env) (d : display) (out : create_window_out)
    (hd : create_display menv.display = startup.returned (some d))
    (hc : create_window (parse_args menv.argv) menv.window d 256 256 = some out)
    (hw : out.window = none) :
    main menv = main_result.exited 1 out.trace := by
  unfold main
  simp only [hd, hc, hw]

/-- C10: whenever `create_window` returns (no `assert` fails), the calls of
`create_dmabuf_buffer` it has made are those for slots 0, 1, 2 in this order, as many as
`rets` records; it returns a window exactly when three calls were made and each
returned 0 (which, once the window itself was allocated, is exactly when
`create_dmabuf_buffer` succeeds for each of the three slots); if the call for slot `i`
fails, it is the last call made and `create_window` returns `NULL`; and `main`, having
got `NULL` from `create_window`, returns 1. -/
theorem C10_window_iff_all_three_slots (ty : Nat) (env : window_env) (d : display)
    (w h : Int) (out : create_window_out) (hc : create_window ty env d w h = some out) :
    out.rets <+:
      [(create_dmabuf_buffer ty (env.buffers 0) buffer.zero w h DRM_FORMAT_ARGB8888).1,
       (create_dmabuf_buffer ty (env.buffers 1) buffer.zero w h DRM_FORMAT_ARGB8888).1,
       (create_dmabuf_buffer ty (env.buffers 2) buffer.zero w h DRM_FORMAT_ARGB8888).1] ∧
    ((∃ win, out.window = some win) ↔ out.rets = [0, 0, 0]) ∧
    (∀ (i : Nat) (r : Int), out.rets[i]? = some r → r < 0 →
      out.rets.length = i + 1 ∧ out.window = none) ∧
    (env.zalloc_ok = true →
      ((∃ win, out.window = some win) ↔
        ((create_dmabuf_buffer ty (env.buffers 0) buffer.zero w h DRM_FORMAT_ARGB8888).1 = 0 ∧
         (create_dmabuf_buffer ty (env.buffers 1) buffer.zero w h DRM_FORMAT_ARGB8888).1 = 0 ∧
         (create_dmabuf_buffer ty (env.buffers 2) buffer.zero w h DRM_FORMAT_ARGB8888).1 =
           0))) ∧
    (∀ menv : main_env, create_display menv.display = startup.returned (some d) →
      parse_args menv.argv = ty → menv.window = env → w = 256 → h = 256 →
      out.window = none → main menv = main_result.exited 1 out.trace) := by
  obtain ⟨p1, p2, p3, p4⟩ := create_window_all_or_nothing ty env d w h out hc
  refine ⟨p1, p2, p3, p4, ?_⟩
  intro menv hd hty henv hw hh hnone
  subst hty henv hw hh
  exact main_without_window menv d out hd hc hnone

theorem C10_slot_one_fails_witness :
    ∃ out,
      create_window ION_HEAP_TYPE_SYSTEM (window_env_with slot_one_fails)
        display_with_shell 256 256 = some out ∧
      out.rets = [0, -1] ∧ out.rets.length = 2 ∧ out.window = none :=
  have h1 : (create_window ION_HEAP_TYPE_SYSTEM (window_env_with slot_one_fails)
      display_with_shell 256 256).isSome = true := by decide
  have hc := (Option.some_get h1).symm
  have hr : ((create_window ION_HEAP_TYPE_SYSTEM (window_env_with slot_one_fails)
      display_with_shell 256 256).get h1).rets = [0, -1] := rfl
  have hlast := (C10_window_iff_all_three_slots ION_HEAP_TYPE_SYSTEM
    (window_env_with slot_one_fails) display_with_shell 256 256 _ hc).2.2.1 1 (-1)
    (by rw [hr]; rfl) (by decide)
  ⟨_, hc, hr, hlast.1, hlast.2⟩

/-! ## C11: the exit status -/

theorem create_display_exited (env : display_env) (st : Int)
    (h : create_display env = startup.exited st) : st = 1 := by
  unfold create_display at h
  by_cases h1 : env.zalloc_ok = false
  · simp [h1] at h
  · by_cases h2 : env.connect = 0
    · simp [h1, h2] at h
    · by_cases h3 : env.globals.dmabuf = 0
      · simp [h1, h2, h3] at h
      · simp only [h1, h2, h3, if_false] at h
        cases hegl : env.egl with
        | ok =>
          rw [hegl] at h
          simp only at h
          split_ifs at h
        | failed =>
          rw [hegl] at h
          cases h
        | assert_failed =>
          rw [hegl] at h
          cases h
        | exit_failure =>
          rw [hegl] at h
          cases h
          rfl

/-- The dispatch loop is left only when `running` is 0 or the last call of
`wl_display_dispatch` returned -1. -/
theorem main_loop_left (ds : List dispatch) :
    ∀ (s : state) (ret : Int) (s4 : state), main_loop s ret ds = loop_result.left s4 →
      (s4.running = 0 ∨ ret = -1 ∨ ∃ d, d ∈ ds ∧ d.ret = -1) := by
  induction ds with
  | nil =>
    intro s ret s4 h
    simp only [main_loop] at h
    split_ifs at h with hc
    cases h
    by_cases hr : s.running = 0
    · exact Or.inl hr
    · right
      left
      by_contra hret
      exact hc ⟨hr, hret⟩
  | cons d rest ih =>
    intro s ret s4 h
    simp only [main_loop] at h
    split_ifs at h with hc
    · cases hh : handle_all s d.events with
      | none =>
        rw [hh] at h
        cases h
      | some s1 =>
        rw [hh] at h
        rcases ih s1 d.ret s4 h with h1 | h1 | ⟨d2, hd2, hr2⟩
        · exact Or.inl h1
        · exact Or.inr (Or.inr ⟨d, List.mem_cons_self _ _, h1⟩)
        · exact Or.inr (Or.inr ⟨d2, List.mem_cons_of_mem _ hd2, hr2⟩)
    · cases h
      by_cases hr : s.running = 0
      · exact Or.inl hr
      · right
        left
        by_contra hret
        exact hc ⟨hr, hret⟩

/-- C11: in every run of `main` the exit status is 1 when `create_display` fails (it
returns `NULL`, or ends the process through `exit(EXIT_FAILURE)`), when `create_window`
returns `NULL`, and when `running` is 0 once the roundtrip after `create_window` has
returned; it is 0 in every run that enters the dispatch loop and leaves it, and the loop
is left only because `running` became 0 or because `wl_display_dispatch` returned -1;
no other exit status occurs. -/
theorem C11_exit_status (env : main_env) :
    (create_display env.display = startup.returned none →
      main env = main_result.exited 1 []) ∧
    (∀ st, create_display env.display = startup.exited st →
      st = 1 ∧ main env = main_result.exited 1 []) ∧
    (∀ d out, create_display env.display = startup.returned (some d) →
      create_window (parse_args env.argv) env.window d 256 256 = some out →
      out.window = none → main env = main_result.exited 1 out.trace) ∧
    (∀ d out win s1, create_display env.display = startup.returned (some d) →
      create_window (parse_args env.argv) env.window d 256 256 = some out →
      out.window = some win →
      handle_all (main_start win out.trace) env.roundtrip = some s1 →
      s1.running = 0 → main env = main_result.exited 1 s1.trace) ∧
    (∀ d out win s1 s3 s4, create_display env.display = startup.returned (some d) →
      create_window (parse_args env.argv) env.window d 256 256 = some out →
      out.window = some win →
      handle_all (main_start win out.trace) env.roundtrip = some s1 →
      s1.running ≠ 0 →
      main_first_frame s1 env.first_frame_cb = some s3 →
      main_loop s3 0 env.dispatches = loop_result.left s4 →
      (s4.running = 0 ∨ ∃ dsp, dsp ∈ env.dispatches ∧ dsp.ret = -1) ∧
      main env = main_result.exited 0
        (s4.trace ++ [call.fprintf "simple-dmabuf-ion exiting\n"] ++
          destroy_window s4.window ++ [call.destroy_display])) ∧
    (∀ st t, main env = main_result.exited st t → st = 0 ∨ st = 1) := by
  refine ⟨?_, ?_, ?_, ?_, ?_, ?_⟩
  · intro hd
    unfold main
    simp only [hd]
  · intro st hd
    have h1 := create_display_exited env.display st hd
    subst h1
    refine ⟨rfl, ?_⟩
    unfold main
    simp only [hd]
  · intro d out hd hc hw
    unfold main
    simp only [hd, hc, hw]
  · intro d out win s1 hd hc hw hr h0
    unfold main
    simp only [hd, hc, hw, hr, h0, if_true]
  · intro d out win s1 s3 s4 hd hc hw hr h0 hf hl
    constructor
    · rcases main_loop_left env.dispatches s3 0 s4 hl with h1 | h1 | h1
      · exact Or.inl h1
      · norm_num at h1
      · exact Or.inr h1
    · unfold main
      simp only [hd, hc, hw, hr, h0, if_false, hf, hl]
  · intro st t h
    unfold main at h
    simp only at h
    split at h
    · cases h
    · rename_i st2 hd
      cases h
      exact Or.inr (create_display_exited env.display _ hd)
    · cases h
      exact Or.inr rfl
    · split at h
      · cases h
      · split at h
        · cases h
          exact Or.inr rfl
        · split at h
          · cases h
          · split_ifs at h
            · cases h
              exact Or.inr rfl
            · split at h
              · cases h
              · split at h
                · cases h
                · cases h
                · cases h
                  exact Or.inl rfl

theorem C11_exit_status_runs :
    (∃ t, main (main_env_with
        [⟨[event.xdg_surface_configure 1 101], 1⟩, ⟨[event.signal_int], 1⟩]) =
      main_result.exited 0 t) ∧
    (∃ t, main (main_env_with [⟨[], -1⟩]) = main_result.exited 0 t) ∧
    (∃ t, main { main_env_with [] with roundtrip := [event.create_failed 1] } =
      main_result.exited 1 t) ∧
    (∃ t, main { main_env_with [] with
        window := window_env_with slot_one_fails } = main_result.exited 1 t) ∧
    (main { main_env_with [] with
        display := { display_env_ok with ion_open := -1 } } = main_result.exited 1 []) :=
  ⟨⟨_, rfl⟩, ⟨_, rfl⟩, ⟨_, rfl⟩, ⟨_, rfl⟩,
    (C11_exit_status { main_env_with [] with
        display := { display_env_ok with ion_open := -1 } }).1 rfl⟩

/-! ## C12: the heap class chosen by the argument vector -/

theorem char_of_code (c : Char) (n : Nat) (h : c.toNat = n) : c = Char.ofNat n := by
  rw [← h, Char.ofNat_toNat]

theorem atoi_digits_ge (l : List Char) : ∀ acc : Int, 0 ≤ acc → acc ≤ atoi_digits l acc := by
  induction l with
  | nil => intro acc _; exact le_refl _
  | cons c cs ih =>
    intro acc h
    simp only [atoi_digits]
    split_ifs
    · have := ih (acc * 10 + ((c.toNat - 48 : Nat) : Int)) (by positivity)
      omega
    · exact le_refl _

theorem atoi_digits_one (l : List Char) :
    atoi_digits l 1 = 1 ↔ ∀ c, l.head? = some c → ¬ (48 ≤ c.toNat ∧ c.toNat ≤ 57) := by
  cases l with
  | nil => simp [atoi_digits]
  | cons c cs =>
    simp only [atoi_digits, List.head?_cons, Option.some.injEq, forall_eq']
    split_ifs with hd
    · have := atoi_digits_ge cs (1 * 10 + ((c.toNat - 48 : Nat) : Int)) (by positivity)
      constructor
      · intro h
        omega
      · intro h
        exact absurd hd h
    · simp [hd]

theorem atoi_digits_zero (l : List Char) :
    atoi_digits l 0 = 1 ↔ ∃ zeros rest, l = zeros ++ '1' :: rest ∧ (∀ c ∈ zeros, c = '0') ∧
      (∀ c, rest.head? = some c → ¬ (48 ≤ c.toNat ∧ c.toNat ≤ 57)) := by
  induction l with
  | nil => simp [atoi_digits]
  | cons c cs ih =>
    simp only [atoi_digits]
    by_cases hd : 48 ≤ c.toNat ∧ c.toNat ≤ 57
    · simp only [hd, and_self, if_true]
      by_cases h0 : c.toNat = 48
      · have hc : c = '0' := char_of_code c 48 h0
        subst hc
        have e : ((0:Int) * 10 + (('0'.toNat - 48 : Nat) : Int)) = 0 := by decide
        rw [e, ih]
        constructor
        · rintro ⟨zeros, rest, rfl, hz, hr⟩
          exact ⟨'0' :: zeros, rest, rfl, by simpa using hz, hr⟩
        · rintro ⟨zeros, rest, hl, hz, hr⟩
          cases zeros with
          | nil =>
            simp only [List.nil_append, List.cons.injEq] at hl
            exact absurd hl.1 (by decide)
          | cons z zs =>
            simp only [List.cons_append, List.cons.injEq] at hl
            exact ⟨zs, rest, hl.2, fun c hc => hz c (List.mem_cons_of_mem _ hc), hr⟩
      · by_cases h1 : c.toNat = 49
        · have hc : c = '1' := char_of_code c 49 h1
          subst hc
          have e : ((0:Int) * 10 + (('1'.toNat - 48 : Nat) : Int)) = 1 := by decide
          rw [e, atoi_digits_one]
          constructor
          · intro hr
            exact ⟨[], cs, rfl, by simp, hr⟩
          · rintro ⟨zeros, rest, hl, hz, hr⟩
            cases zeros with
            | nil =>
              simp only [List.nil_append, List.cons.injEq] at hl
              rw [hl.2]
              exact hr
            | cons z zs =>
              simp only [List.cons_append, List.cons.injEq] at hl
              have := hz z (List.mem_cons_self _ _)
              rw [← hl.1] at this
              exact absurd this (by decide)
        · have hge := atoi_digits_ge cs ((0:Int) * 10 + ((c.toNat - 48 : Nat) : Int))
            (by positivity)
          constructor
          · intro h
            omega
          · rintro ⟨zeros, rest, hl, hz, hr⟩
            exfalso
            cases zeros with
            | nil =>
              simp only [List.nil_append, List.cons.injEq] at hl
              rw [hl.1] at h1
              exact h1 (by decide)
            | cons z zs =>
              simp only [List.cons_append, List.cons.injEq] at hl
              have := hz z (List.mem_cons_self _ _)
              rw [← hl.1] at this
              rw [this] at h0
              exact h0 (by decide)
    · simp only [hd, if_false]
      constructor
      · intro h
        norm_num at h
      · rintro ⟨zeros, rest, hl, hz, hr⟩
        exfalso
        cases zeros with
        | nil =>
          simp only [List.nil_append, List.cons.injEq] at hl
          rw [hl.1] at hd
          exact hd (by decide)
        | cons z zs =>
          simp only [List.cons_append, List.cons.injEq] at hl
          have := hz z (List.mem_cons_self _ _)
          rw [← hl.1] at this
          rw [this] at hd
          exact hd (by decide)

theorem dropWhile_append_of_all {α : Type} (p : α → Bool) (ws tail : List α)
    (hws : ∀ c ∈ ws, p c = true) (htail : ∀ c, tail.head? = some c → p c = false) :
    (ws ++ tail).dropWhile p = tail := by
  induction ws with
  | nil =>
    cases tail with
    | nil => rfl
    | cons c t =>
      have := htail c rfl
      simp [List.dropWhile, this]
  | cons w ws ih =>
    have hw := hws w (List.mem_cons_self _ _)
    simp only [List.cons_append, List.dropWhile, hw]
    exact ih (fun c hc => hws c (List.mem_cons_of_mem _ hc))

/-- The numeral read is the number 1 exactly on the strings described by
`reads_as_one`. -/
theorem strtol_numeral_eq_one_iff (s : String) : strtol_numeral s = 1 ↔ reads_as_one s := by
  constructor
  · intro h
    have hsplit : s.toList.takeWhile isspace ++ s.toList.dropWhile isspace = s.toList :=
      List.takeWhile_append_dropWhile _ _
    have hws : ∀ c ∈ s.toList.takeWhile isspace, isspace c = true :=
      fun c hc => List.mem_takeWhile_imp hc
    generalize s.toList.takeWhile isspace = tw at hsplit hws
    unfold strtol_numeral at h
    cases hd : s.toList.dropWhile isspace with
    | nil =>
      rw [hd] at h
      simp at h
    | cons c cs =>
      rw [hd] at h hsplit
      simp only at h
      split_ifs at h with h45 h43
      · have := atoi_digits_ge cs 0 (le_refl _)
        omega
      · obtain ⟨zeros, rest, hl, hz, hr⟩ := (atoi_digits_zero cs).1 h
        have hc : c = '+' := char_of_code c 43 h43
        refine ⟨_, ['+'], zeros, rest, ?_, hws, Or.inr rfl, hz, hr⟩
        rw [← hsplit, hc, hl]
        rfl
      · obtain ⟨zeros, rest, hl, hz, hr⟩ := (atoi_digits_zero (c :: cs)).1 h
        refine ⟨_, [], zeros, rest, ?_, hws, Or.inl rfl, hz, hr⟩
        rw [← hsplit, hl]
        rfl
  · rintro ⟨ws, sign, zeros, rest, hl, hws, hsign, hz, hr⟩
    have hdig : atoi_digits (zeros ++ '1' :: rest) 0 = 1 :=
      (atoi_digits_zero _).2 ⟨zeros, rest, rfl, hz, hr⟩
    unfold strtol_numeral
    rw [hl]
    rcases hsign with rfl | rfl
    · have hdrop : (ws ++ ([] ++ (zeros ++ '1' :: rest))).dropWhile isspace =
          zeros ++ '1' :: rest := by
        apply dropWhile_append_of_all _ _ _ hws
        intro c hc
        cases zeros with
        | nil =>
          simp only [List.nil_append, List.head?_cons, Option.some.injEq] at hc
          subst hc
          decide
        | cons z zs =>
          simp only [List.nil_append, List.cons_append, List.head?_cons,
            Option.some.injEq] at hc
          subst hc
          rw [hz _ (List.mem_cons_self _ _)]
          decide
      rw [hdrop]
      cases zeros with
      | nil =>
        simp only [List.nil_append] at hdig ⊢
        rw [if_neg (by decide), if_neg (by decide)]
        exact hdig
      | cons z zs =>
        have hz0 := hz z (List.mem_cons_self _ _)
        subst hz0
        simp only [List.cons_append] at hdig ⊢
        rw [if_neg (by decide), if_neg (by decide)]
        exact hdig
    · have hdrop : (ws ++ (['+'] ++ (zeros ++ '1' :: rest))).dropWhile isspace =
          '+' :: (zeros ++ '1' :: rest) := by
        apply dropWhile_append_of_all _ _ _ hws
        intro c hc
        simp only [List.singleton_append, List.head?_cons, Option.some.injEq] at hc
        subst hc
        decide
      rw [hdrop]
      simp only
      rw [if_neg (by decide), if_pos (by decide)]
      exact hdig

/-- `atoi` returns 1 exactly when the numeral read fits a `long` and is congruent to 1
modulo `2 ^ 32`. -/
theorem atoi_eq_one_iff (s : String) :
    atoi s = 1 ↔
      (LONG_MIN ≤ strtol_numeral s ∧ strtol_numeral s ≤ LONG_MAX ∧
        strtol_numeral s % 2 ^ 32 = 1) := by
  unfold atoi strtol wrap_int LONG_MAX LONG_MIN
  generalize strtol_numeral s = v
  split_ifs <;> omega

/-- C12 (counterexample): with the single malformed argument `1abc` the heap class is
carve-out, not system; and so it is with the single argument `4294967297`, a number
other than 1. -/
theorem C12_malformed_argument_selects_carveout :
    parse_args ["weston-simple-dmabuf-ion", "1abc"] = ION_HEAP_TYPE_CARVEOUT ∧
    parse_args ["weston-simple-dmabuf-ion", "4294967297"] = ION_HEAP_TYPE_CARVEOUT ∧
    ION_HEAP_TYPE_CARVEOUT ≠ ION_HEAP_TYPE_SYSTEM := by
  refine ⟨?_, ?_, ?_⟩ <;> decide

/-- C12 (amended): for every argument vector the heap class is carve-out or system, and
it is carve-out exactly when one positional argument is given and `atoi` returns 1 for
it.  `atoi` is `(int) strtol`: it reads, after optional white space and an optional sign,
the leading decimal digits (0 if there are none), ignores whatever follows, fits the
number to `long` (64 bits) and keeps the low 32 bits.  So it returns 1 exactly when the
number read lies in the range of `long` and is congruent to 1 modulo `2 ^ 32`.  The
number read is 1 itself exactly for the strings of `reads_as_one` (zeros, then `1`,
after an optional `+`, followed by the end or a character that is not a digit), all of
which select carve-out; and among the arguments whose number fits an `int` no other
does.  So `1`, `+1`, `01`, `1abc`, and also `4294967297` and `-4294967295`, select
carve-out, while no argument, more than one argument, an argument without a leading
numeral, and a number not congruent to 1 modulo `2 ^ 32` or beyond the range of `long`
select system. -/
theorem C12_carveout_iff_atoi_returns_one (argv : List String) :
    (parse_args argv = ION_HEAP_TYPE_CARVEOUT ∨ parse_args argv = ION_HEAP_TYPE_SYSTEM) ∧
    (parse_args argv = ION_HEAP_TYPE_CARVEOUT ↔
      ∃ prog arg, argv = [prog, arg] ∧ atoi arg = 1) ∧
    (parse_args argv = ION_HEAP_TYPE_CARVEOUT ↔
      ∃ prog arg, argv = [prog, arg] ∧
        LONG_MIN ≤ strtol_numeral arg ∧ strtol_numeral arg ≤ LONG_MAX ∧
        strtol_numeral arg % 2 ^ 32 = 1) ∧
    (∀ arg, strtol_numeral arg = 1 ↔ reads_as_one arg) ∧
    (∀ prog arg, reads_as_one arg → parse_args [prog, arg] = ION_HEAP_TYPE_CARVEOUT) ∧
    (∀ prog arg, - 2 ^ 31 ≤ strtol_numeral arg → strtol_numeral arg < 2 ^ 31 →
      (parse_args [prog, arg] = ION_HEAP_TYPE_CARVEOUT ↔ reads_as_one arg)) ∧
    (parse_args ["weston-simple-dmabuf-ion"] = ION_HEAP_TYPE_SYSTEM ∧
     parse_args ["weston-simple-dmabuf-ion", "1"] = ION_HEAP_TYPE_CARVEOUT ∧
     parse_args ["weston-simple-dmabuf-ion", "+1"] = ION_HEAP_TYPE_CARVEOUT ∧
     parse_args ["weston-simple-dmabuf-ion", "01"] = ION_HEAP_TYPE_CARVEOUT ∧
     parse_args ["weston-simple-dmabuf-ion", " 1"] = ION_HEAP_TYPE_CARVEOUT ∧
     parse_args ["weston-simple-dmabuf-ion", "1abc"] = ION_HEAP_TYPE_CARVEOUT ∧
     parse_args ["weston-simple-dmabuf-ion", "4294967297"] = ION_HEAP_TYPE_CARVEOUT ∧
     parse_args ["weston-simple-dmabuf-ion", "-4294967295"] = ION_HEAP_TYPE_CARVEOUT ∧
     parse_args ["weston-simple-dmabuf-ion", "8589934593"] = ION_HEAP_TYPE_CARVEOUT ∧
     parse_args ["weston-simple-dmabuf-ion", "0"] = ION_HEAP_TYPE_SYSTEM ∧
     parse_args ["weston-simple-dmabuf-ion", "2"] = ION_HEAP_TYPE_SYSTEM ∧
     parse_args ["weston-simple-dmabuf-ion", "-1"] = ION_HEAP_TYPE_SYSTEM ∧
     parse_args ["weston-simple-dmabuf-ion", "10"] = ION_HEAP_TYPE_SYSTEM ∧
     parse_args ["weston-simple-dmabuf-ion", "4294967296"] = ION_HEAP_TYPE_SYSTEM ∧
     parse_args ["weston-simple-dmabuf-ion", "18446744073709551617"] =
       ION_HEAP_TYPE_SYSTEM ∧
     parse_args ["weston-simple-dmabuf-ion", "-18446744073709551615"] =
       ION_HEAP_TYPE_SYSTEM ∧
     parse_args ["weston-simple-dmabuf-ion", "abc"] = ION_HEAP_TYPE_SYSTEM ∧
     parse_args ["weston-simple-dmabuf-ion", ""] = ION_HEAP_TYPE_SYSTEM ∧
     parse_args ["weston-simple-dmabuf-ion", "1", "1"] = ION_HEAP_TYPE_SYSTEM) := by
  have hne : ION_HEAP_TYPE_SYSTEM ≠ ION_HEAP_TYPE_CARVEOUT := by decide
  have key : ∀ av : List String, parse_args av = ION_HEAP_TYPE_CARVEOUT ↔
      ∃ prog arg, av = [prog, arg] ∧ atoi arg = 1 := by
    intro av
    unfold parse_args
    constructor
    · intro h
      split_ifs at h with hlen hat
      · match av, hlen with
        | [prog, arg], _ => exact ⟨prog, arg, rfl, hat⟩
      · exact absurd h hne
      · exact absurd h hne
    · rintro ⟨prog, arg, rfl, hat⟩
      simp [hat]
  have one : ∀ prog arg, parse_args [prog, arg] = ION_HEAP_TYPE_CARVEOUT ↔ atoi arg = 1 := by
    intro prog arg
    rw [key]
    constructor
    · rintro ⟨p, a, hv, hat⟩
      simp only [List.cons.injEq, and_true] at hv
      rw [hv.2]
      exact hat
    · intro hat
      exact ⟨prog, arg, rfl, hat⟩
  refine ⟨?_, key argv, ?_, strtol_numeral_eq_one_iff, ?_, ?_, ?_⟩
  · unfold parse_args
    split_ifs
    · exact Or.inl rfl
    · exact Or.inr rfl
    · exact Or.inr rfl
  · rw [key]
    constructor
    · rintro ⟨prog, arg, hv, hat⟩
      exact ⟨prog, arg, hv, (atoi_eq_one_iff arg).1 hat⟩
    · rintro ⟨prog, arg, hv, hr⟩
      exact ⟨prog, arg, hv, (atoi_eq_one_iff arg).2 hr⟩
  · intro prog arg hr
    rw [one, atoi_eq_one_iff, (strtol_numeral_eq_one_iff arg).2 hr]
    decide
  · intro prog arg hlo hhi
    rw [one, atoi_eq_one_iff, ← strtol_numeral_eq_one_iff]
    unfold LONG_MIN LONG_MAX
    omega
  · decide

/-! ## C13: the running flag -/

theorem redraw_running (s : state) (callback frame_cb : Nat) (s1 : state)
    (h : redraw s callback frame_cb = some s1) : s1.running = s.running := by
  cases hn : window_next_buffer s.window with
  | none =>
    rw [(redraw_none_iff s callback frame_cb).2 hn] at h
    cases h
  | some i =>
    rw [redraw_of_next s callback frame_cb i hn] at h
    cases h
    rfl

/-- No listener sets `running` to anything but 0. -/
theorem handle_running (s : state) (e : event) (s1 : state) (h : handle s e = some s1) :
    s1.running = s.running ∨ s1.running = 0 := by
  cases e with
  | buffer_release i =>
    simp only [handle, Option.some.injEq] at h
    subst h
    exact Or.inl rfl
  | frame_done frame_cb =>
    exact Or.inl (redraw_running s _ _ s1 h)
  | create_succeeded i nb =>
    simp only [handle, Option.some.injEq] at h
    subst h
    exact Or.inl rfl
  | create_failed i =>
    simp only [handle, Option.some.injEq] at h
    subst h
    exact Or.inr rfl
  | xdg_surface_configure serial frame_cb =>
    simp only [handle, xdg_surface_handle_configure] at h
    split_ifs at h with hc
    · cases hr : redraw { s with trace := s.trace ++ [call.xdg_surface_ack_configure serial] }
          0 frame_cb with
      | none => simp [hr] at h
      | some s2 =>
        simp only [hr, Option.map_some', Option.some.injEq] at h
        subst h
        have hrun := redraw_running _ _ _ s2 hr
        exact Or.inl hrun
    · simp only [Option.map_some', Option.some.injEq] at h
      subst h
      exact Or.inl rfl
  | xdg_toplevel_configure =>
    simp only [handle, Option.some.injEq] at h
    subst h
    exact Or.inl rfl
  | xdg_toplevel_close =>
    simp only [handle, Option.some.injEq] at h
    subst h
    exact Or.inr rfl
  | signal_int =>
    simp only [handle, Option.some.injEq] at h
    subst h
    exact Or.inr rfl

theorem handle_all_running_zero (es : List event) :
    ∀ (s s1 : state), s.running = 0 → handle_all s es = some s1 → s1.running = 0 := by
  induction es with
  | nil =>
    intro s s1 h0 h
    simp only [handle_all, Option.some.injEq] at h
    subst h
    exact h0
  | cons e es ih =>
    intro s s1 h0 h
    simp only [handle_all] at h
    cases he : handle s e with
    | none => simp [he] at h
    | some s2 =>
      simp only [he] at h
      rcases handle_running s e s2 he with h2 | h2
      · exact ih s2 s1 (h2.trans h0) h
      · exact ih s2 s1 h2 h

theorem main_loop_of_stopped (s : state) (ret : Int) (ds : List dispatch)
    (h0 : s.running = 0) : main_loop s ret ds = loop_result.left s := by
  cases ds with
  | nil => simp [main_loop, h0]
  | cons d rest => simp [main_loop, h0]

/-- C13: `running` is 1 when `main` starts handling events; `signal_int`,
`create_failed` and `xdg_toplevel_handle_close` each set it to 0; no listener, no call of
`redraw` and no step of `main` sets it to any other value than 0, so once 0 it stays 0;
the loop of `main` tests the flag before each call of `wl_display_dispatch`: with the
flag set (and no dispatch error) it performs exactly the next dispatch and tests again,
and once the flag is 0 it performs no further dispatch, whatever events are pending,
and is left. -/
theorem C13_running_flag :
    (∀ w t, (main_start w t).running = 1) ∧
    (∀ s, (signal_int s).running = 0) ∧
    (∀ s i, (create_failed s i).running = 0) ∧
    (∀ s, (xdg_toplevel_handle_close s).running = 0) ∧
    (∀ s e s1, handle s e = some s1 → s1.running = s.running ∨ s1.running = 0) ∧
    (∀ s callback frame_cb s1, redraw s callback frame_cb = some s1 →
      s1.running = s.running) ∧
    (∀ s frame_cb s1, main_first_frame s frame_cb = some s1 → s1.running = s.running) ∧
    (∀ s es s1, s.running = 0 → handle_all s es = some s1 → s1.running = 0) ∧
    (∀ s ret ds, s.running = 0 → main_loop s ret ds = loop_result.left s) ∧
    (∀ s ret d rest s1, s.running ≠ 0 → ret ≠ -1 → handle_all s d.events = some s1 →
      main_loop s ret (d :: rest) = main_loop s1 d.ret rest) ∧
    (∀ s ret d rest s1, s.running ≠ 0 → ret ≠ -1 → handle_all s d.events = some s1 →
      s1.running = 0 → main_loop s ret (d :: rest) = loop_result.left s1) := by
  refine ⟨fun _ _ => rfl, fun _ => rfl, fun _ _ => rfl, fun _ => rfl, handle_running,
    redraw_running, ?_, fun s es s1 => handle_all_running_zero es s s1,
    main_loop_of_stopped, ?_, ?_⟩
  · intro s frame_cb s1 h
    unfold main_first_frame at h
    split_ifs at h
    · have hrun := redraw_running _ _ _ s1 h
      exact hrun
    · cases h
      rfl
  · intro s ret d rest s1 hr hret he
    simp only [main_loop, he]
    rw [if_pos ⟨hr, hret⟩]
  · intro s ret d rest s1 hr hret he h0
    simp only [main_loop, he]
    rw [if_pos ⟨hr, hret⟩]
    exact main_loop_of_stopped s1 d.ret rest h0

/-! ## C14: what `redraw` and `buffer_release` change in the pool -/

/-- C14: in every state in which some buffer of the pool is free, `redraw` succeeds and
changes the busy flag of exactly one buffer, the one `window_next_buffer` returns, from 0
to 1, leaving the other two buffers as they are; and in every state, for every slot,
`buffer_release` sets the busy flag of that buffer to 0 and leaves every other field of
it and every other buffer unchanged. -/
theorem C14_busy_flag_effects :
    (∀ (s : state) (callback frame_cb : Nat),
      (∃ j, (s.window.buffers j).busy = 0) →
      ∃ i s1, window_next_buffer s.window = some i ∧
        redraw s callback frame_cb = some s1 ∧
        (s.window.buffers i).busy = 0 ∧ (s1.window.buffers i).busy = 1 ∧
        ∀ j, j ≠ i → s1.window.buffers j = s.window.buffers j) ∧
    (∀ b : buffer,
      (buffer_release b).busy = 0 ∧ (buffer_release b).buffer = b.buffer ∧
      (buffer_release b).ion_data = b.ion_data ∧ (buffer_release b).vaddr = b.vaddr ∧
      (buffer_release b).width = b.width ∧ (buffer_release b).height = b.height ∧
      (buffer_release b).stride = b.stride ∧ (buffer_release b).format = b.format ∧
      (buffer_release b).egl_image = b.egl_image ∧
      (buffer_release b).gl_texture = b.gl_texture ∧
      (buffer_release b).gl_fbo = b.gl_fbo) ∧
    (∀ (s : state) (i : Fin NUM_BUFFERS),
      ∃ s1, handle s (event.buffer_release i) = some s1 ∧
        s1.window.buffers i = buffer_release (s.window.buffers i) ∧
        (∀ j, j ≠ i → s1.window.buffers j = s.window.buffers j) ∧
        s1.running = s.running ∧ s1.step = s.step ∧ s1.step_dir = s.step_dir ∧
        s1.trace = s.trace) := by
  refine ⟨?_, fun b => ⟨rfl, rfl, rfl, rfl, rfl, rfl, rfl, rfl, rfl, rfl, rfl⟩, ?_⟩
  · intro s callback frame_cb hfree
    cases hn : window_next_buffer s.window with
    | none =>
      obtain ⟨j, hj⟩ := hfree
      exact absurd hj ((window_next_buffer_none_iff s.window).1 hn j)
    | some i =>
      refine ⟨i, _, rfl, redraw_of_next s callback frame_cb i hn,
        ((window_next_buffer_some_iff s.window i).1 hn).1, ?_, ?_⟩
      · simp
      · intro j hj
        simp [Function.update_noteq hj]
  · intro s i
    refine ⟨s.map_buffer i buffer_release, rfl, ?_, ?_, rfl, rfl, rfl, rfl⟩
    · simp [state.map_buffer]
    · intro j hj
      simp [state.map_buffer, Function.update_noteq hj]

/-! ## C15: which buffers `destroy_window` frees -/

theorem destroy_window_buffers_unrolled (w : window) :
    destroy_window_buffers w (List.finRange NUM_BUFFERS) =
      (if (w.buffers 0).buffer ≠ 0 then buffer_free (w.buffers 0) else []) ++
      ((if (w.buffers 1).buffer ≠ 0 then buffer_free (w.buffers 1) else []) ++
       (if (w.buffers 2).buffer ≠ 0 then buffer_free (w.buffers 2) else [])) := by
  rw [finRange_NUM_BUFFERS]
  simp only [destroy_window_buffers, List.append_nil]

/-- The releases of `buffer_free` for a buffer with everything set. -/
theorem buffer_free_of_all_set (buf : buffer) (hb : buf.buffer ≠ 0) (hfbo : buf.gl_fbo ≠ 0)
    (htex : buf.gl_texture ≠ 0) (himg : buf.egl_image ≠ 0) (hmap : buf.vaddr ≠ 0) :
    buffer_free buf =
      [call.glDeleteFramebuffers buf.gl_fbo, call.glDeleteTextures buf.gl_texture,
       call.egl_destroy_image buf.egl_image, call.wl_buffer_destroy buf.buffer,
       call.munmap buf.vaddr buf.ion_data.len, call.close buf.ion_data.fd] := by
  unfold buffer_free
  simp [hb, hfbo, htex, himg, hmap]

/-- C15 (counterexample): in a run of `main` in which all three buffers were constructed
and the creation of the `wl_buffer` of slot 1 then failed, `main` leaves its loop, calls
`destroy_window` and exits with status 0; the framebuffer 42, texture 32, image 22,
mapping 8192 and handle 6 of slot 1 were acquired, and none of them is released, while
those of slots 0 and 2 are. -/
theorem C15_slot_without_wl_buffer_not_freed :
    (∃ t, main main_env_create_failed = main_result.exited 0 t) ∧
    (call.mmap 262144 6 ∈ exit_trace (main main_env_create_failed) ∧
     call.egl_create_image 256 256 DRM_FORMAT_ARGB8888 6 1024 ∈
       exit_trace (main main_env_create_failed) ∧
     call.glGenTextures 32 ∈ exit_trace (main main_env_create_failed) ∧
     call.glGenFramebuffers 42 ∈ exit_trace (main main_env_create_failed)) ∧
    (call.glDeleteFramebuffers 41 ∈ exit_trace (main main_env_create_failed) ∧
     call.close 5 ∈ exit_trace (main main_env_create_failed) ∧
     call.glDeleteFramebuffers 43 ∈ exit_trace (main main_env_create_failed) ∧
     call.close 7 ∈ exit_trace (main main_env_create_failed)) ∧
    (call.glDeleteFramebuffers 42 ∉ exit_trace (main main_env_create_failed) ∧
     call.glDeleteTextures 32 ∉ exit_trace (main main_env_create_failed) ∧
     call.egl_destroy_image 22 ∉ exit_trace (main main_env_create_failed) ∧
     call.munmap 8192 262144 ∉ exit_trace (main main_env_create_failed) ∧
     call.close 6 ∉ exit_trace (main main_env_create_failed)) := by
  refine ⟨⟨_, rfl⟩, ?_, ?_, ?_⟩ <;> decide

/-- C15 (amended): for every window, `destroy_window` calls `buffer_free` for exactly
those of the three slots whose display-side `wl_buffer` is not `NULL`, in slot order,
between the destruction of the frame callback and that of the shell objects; for such a
slot, when its framebuffer, texture, image and mapping are set, the framebuffer, the
texture, the image, the `wl_buffer`, the mapping and the handle are released in this
order; a slot whose `wl_buffer` is `NULL` is skipped, and when all three are `NULL` no
buffer resource is released at all. -/
theorem C15_destroy_window_frees_slots_with_wl_buffer (w : window) :
    destroy_window w =
      (if w.callback ≠ 0 then [call.wl_callback_destroy w.callback] else []) ++
      ((if (w.buffers 0).buffer ≠ 0 then buffer_free (w.buffers 0) else []) ++
       ((if (w.buffers 1).buffer ≠ 0 then buffer_free (w.buffers 1) else []) ++
        (if (w.buffers 2).buffer ≠ 0 then buffer_free (w.buffers 2) else []))) ++
      (if w.xdg_toplevel ≠ 0 then [call.xdg_toplevel_destroy w.xdg_toplevel] else []) ++
      (if w.xdg_surface ≠ 0 then [call.xdg_surface_destroy w.xdg_surface] else []) ++
      [call.wl_surface_destroy w.surface, call.free_window] ∧
    (∀ i, (w.buffers i).buffer ≠ 0 → (w.buffers i).gl_fbo ≠ 0 →
      (w.buffers i).gl_texture ≠ 0 → (w.buffers i).egl_image ≠ 0 →
      (w.buffers i).vaddr ≠ 0 →
      [call.glDeleteFramebuffers (w.buffers i).gl_fbo,
       call.glDeleteTextures (w.buffers i).gl_texture,
       call.egl_destroy_image (w.buffers i).egl_image,
       call.wl_buffer_destroy (w.buffers i).buffer,
       call.munmap (w.buffers i).vaddr (w.buffers i).ion_data.len,
       call.close (w.buffers i).ion_data.fd] <:+: destroy_window w) ∧
    ((∀ i, (w.buffers i).buffer = 0) →
      destroy_window w =
        (if w.callback ≠ 0 then [call.wl_callback_destroy w.callback] else []) ++
        (if w.xdg_toplevel ≠ 0 then [call.xdg_toplevel_destroy w.xdg_toplevel] else []) ++
        (if w.xdg_surface ≠ 0 then [call.xdg_surface_destroy w.xdg_surface] else []) ++
        [call.wl_surface_destroy w.surface, call.free_window]) := by
  have hd : destroy_window w =
      (if w.callback ≠ 0 then [call.wl_callback_destroy w.callback] else []) ++
      ((if (w.buffers 0).buffer ≠ 0 then buffer_free (w.buffers 0) else []) ++
       ((if (w.buffers 1).buffer ≠ 0 then buffer_free (w.buffers 1) else []) ++
        (if (w.buffers 2).buffer ≠ 0 then buffer_free (w.buffers 2) else []))) ++
      (if w.xdg_toplevel ≠ 0 then [call.xdg_toplevel_destroy w.xdg_toplevel] else []) ++
      (if w.xdg_surface ≠ 0 then [call.xdg_surface_destroy w.xdg_surface] else []) ++
      [call.wl_surface_destroy w.surface, call.free_window] := by
    unfold destroy_window
    rw [destroy_window_buffers_unrolled]
  refine ⟨hd, ?_, ?_⟩
  · intro i hb hfbo htex himg hmap
    rw [← buffer_free_of_all_set (w.buffers i) hb hfbo htex himg hmap, hd]
    generalize (if w.callback ≠ 0 then [call.wl_callback_destroy w.callback] else []) = A
    generalize (if w.xdg_toplevel ≠ 0 then [call.xdg_toplevel_destroy w.xdg_toplevel]
      else []) = B
    generalize (if w.xdg_surface ≠ 0 then [call.xdg_surface_destroy w.xdg_surface]
      else []) = C
    rcases fin3_cases i with rfl | rfl | rfl
    · rw [if_pos hb]
      generalize (if (w.buffers 1).buffer ≠ 0 then buffer_free (w.buffers 1) else []) = F1
      generalize (if (w.buffers 2).buffer ≠ 0 then buffer_free (w.buffers 2) else []) = F2
      exact ⟨A, F1 ++ F2 ++ B ++ C ++ [call.wl_surface_destroy w.surface, call.free_window],
        by simp only [List.append_assoc]⟩
    · rw [if_pos hb]
      generalize (if (w.buffers 0).buffer ≠ 0 then buffer_free (w.buffers 0) else []) = F0
      generalize (if (w.buffers 2).buffer ≠ 0 then buffer_free (w.buffers 2) else []) = F2
      exact ⟨A ++ F0, F2 ++ B ++ C ++ [call.wl_surface_destroy w.surface, call.free_window],
        by simp only [List.append_assoc]⟩
    · rw [if_pos hb]
      generalize (if (w.buffers 0).buffer ≠ 0 then buffer_free (w.buffers 0) else []) = F0
      generalize (if (w.buffers 1).buffer ≠ 0 then buffer_free (w.buffers 1) else []) = F1
      exact ⟨A ++ F0 ++ F1, B ++ C ++ [call.wl_surface_destroy w.surface, call.free_window],
        by simp only [List.append_assoc]⟩
  · intro hnull
    rw [hd]
    simp [hnull 0, hnull 1, hnull 2]

/-! ## C16: the requested length against the stride -/

theorem wrap_int_of_small (x : Int) (h0 : 0 ≤ x) (h1 : x < 2 ^ 31) : wrap_int x = x := by
  unfold wrap_int
  have e1 : (x + 2 ^ 31) % 2 ^ 32 = x + 2 ^ 31 := by
    apply Int.emod_eq_of_lt <;> omega
  rw [e1, add_sub_cancel_right]

theorem to_u64_of_small (x : Int) (h0 : 0 ≤ x) (h1 : x < 2 ^ 31) : to_u64 x = x.toNat := by
  unfold to_u64
  have e : x % 2 ^ 64 = x := by
    apply Int.emod_eq_of_lt <;> omega
  rw [e]

/-- The length requested and the stride stored, as natural numbers, when nothing
overflows. -/
theorem len_and_stride_of_small (w h : Nat) (hno : 4 * w * h < 2 ^ 31) (hh : 1 ≤ h) :
    to_u64 (wrap_int (wrap_int ((w : Int) * (h : Int)) * 4)) = 4 * w * h ∧
    SIZE_ALIGN (to_u32 (wrap_int ((w : Int) * 4))) GPU_RGB_ALIGN_SZ =
      64 * ((4 * w + 63) / 64) := by
  have hwh : w ≤ w * h := Nat.le_mul_of_pos_right w (by omega)
  have hP : 4 * (w * h) < 2 ^ 31 := by
    rw [← Nat.mul_assoc]
    exact hno
  generalize hpdef : w * h = p at hwh hP
  have hp : ((w : Int) * (h : Int)) = (p : Int) := by
    rw [← hpdef]
    push_cast
    ring
  have hq : (p : Int) * 4 = ((4 * p : Nat) : Int) := by
    push_cast
    ring
  have hs : (w : Int) * 4 = ((4 * w : Nat) : Int) := by
    push_cast
    ring
  have e1 : wrap_int (p : Int) = (p : Int) :=
    wrap_int_of_small _ (Int.natCast_nonneg _) (by omega)
  have e2 : wrap_int ((4 * p : Nat) : Int) = ((4 * p : Nat) : Int) :=
    wrap_int_of_small _ (Int.natCast_nonneg _) (by omega)
  have e3 : to_u64 ((4 * p : Nat) : Int) = 4 * p := by
    rw [to_u64_of_small _ (Int.natCast_nonneg _) (by omega), Int.toNat_ofNat]
  have e4 : to_u32 (wrap_int ((4 * w : Nat) : Int)) = 4 * w := by
    rw [to_u32_wrap_int_of_small _ (Int.natCast_nonneg _) (by omega), Int.toNat_ofNat]
  constructor
  · rw [hp, e1, hq, e2, e3, ← hpdef, Nat.mul_assoc]
  · rw [hs, e4, SIZE_ALIGN_64 _ (by omega)]

theorem create_fbo_for_buffer_import (env : dmabuf_env) (buf : buffer) :
    call.egl_create_image buf.width buf.height buf.format buf.ion_data.fd buf.stride ∈
      (create_fbo_for_buffer env buf).2.2 := by
  unfold create_fbo_for_buffer
  simp only
  split_ifs <;> simp

/-- The allocation request and the image import that `create_dmabuf_buffer` makes once
the heap is selected, the allocation gives a non-zero handle and the mapping succeeds:
the length requested is `width * height * 4`, the pitch imported is the stride. -/
theorem create_dmabuf_buffer_requests (ty : Nat) (env : dmabuf_env) (buf : buffer)
    (w h fmt : Int) (heaps : List ion_heap_data) (fd : Nat)
    (hq : env.heap_query = some heaps)
    (hs : heap_scan ty heaps (MAX_HEAP_COUNT + 1) ≤ MAX_HEAP_COUNT)
    (ha : env.alloc = some fd) (hfd : fd ≠ 0) (hm : env.mmap ≠ MAP_FAILED) :
    call.ioctl_alloc (to_u64 (wrap_int (wrap_int (w * h) * 4)))
        (HEAP_MASK_FROM_TYPE (heap_scan ty heaps (MAX_HEAP_COUNT + 1))) 0 ∈
      (create_dmabuf_buffer ty env buf w h fmt).2.2 ∧
    call.egl_create_image w h fmt fd
        (SIZE_ALIGN (to_u32 (wrap_int (w * 4))) GPU_RGB_ALIGN_SZ) ∈
      (create_dmabuf_buffer ty env buf w h fmt).2.2 := by
  have hs2 : ¬ heap_scan ty heaps (MAX_HEAP_COUNT + 1) > MAX_HEAP_COUNT := by omega
  have himp := create_fbo_for_buffer_import env
    { buffer := buf.buffer, busy := buf.busy,
      ion_data :=
        { len := to_u64 (wrap_int (wrap_int (w * h) * 4)),
          heap_id_mask := HEAP_MASK_FROM_TYPE (heap_scan ty heaps (MAX_HEAP_COUNT + 1)),
          flags := 0, fd := fd, unused := buf.ion_data.unused },
      vaddr := env.mmap, width := w, height := h,
      stride := SIZE_ALIGN (to_u32 (wrap_int (w * 4))) GPU_RGB_ALIGN_SZ,
      format := fmt, egl_image := buf.egl_image, gl_texture := buf.gl_texture,
      gl_fbo := buf.gl_fbo }
  simp only at himp
  unfold create_dmabuf_buffer
  simp only [hq, ha, hs2, hfd, hm, if_false, create_dmabuf_buffer_error]
  split_ifs <;> simp [himp]

/-- C16: for every width `w ≥ 0` and height `h ≥ 1` with `4 * w * h < 2 ^ 31`, the length
`create_dmabuf_buffer` requests from the allocator is `w * h * 4`, and it is at least
`stride * h`, with `stride = SIZE_ALIGN(4 * w, 64)` the pitch handed to the GPU import,
if and only if `w` is a multiple of 16.  For 256 x 256 both are 262144; for `w = 100` the
length requested is `400 * h` while the stride is 448. -/
theorem C16_length_covers_stride_iff (w h : Int) (hw : 0 ≤ w) (hh : 1 ≤ h)
    (hno : 4 * w * h < 2 ^ 31) :
    ((to_u64 (wrap_int (wrap_int (w * h) * 4)) : Int) = w * h * 4) ∧
    (SIZE_ALIGN (to_u32 (wrap_int (w * 4))) GPU_RGB_ALIGN_SZ * h.toNat ≤
        to_u64 (wrap_int (wrap_int (w * h) * 4)) ↔ (16 : Int) ∣ w) ∧
    (∀ (ty : Nat) (env : dmabuf_env) (buf : buffer) (fmt : Int)
        (heaps : List ion_heap_data) (fd : Nat),
        env.heap_query = some heaps →
        heap_scan ty heaps (MAX_HEAP_COUNT + 1) ≤ MAX_HEAP_COUNT →
        env.alloc = some fd → fd ≠ 0 → env.mmap ≠ MAP_FAILED →
        call.ioctl_alloc (to_u64 (wrap_int (wrap_int (w * h) * 4)))
            (HEAP_MASK_FROM_TYPE (heap_scan ty heaps (MAX_HEAP_COUNT + 1))) 0 ∈
          (create_dmabuf_buffer ty env buf w h fmt).2.2 ∧
        call.egl_create_image w h fmt fd
            (SIZE_ALIGN (to_u32 (wrap_int (w * 4))) GPU_RGB_ALIGN_SZ) ∈
          (create_dmabuf_buffer ty env buf w h fmt).2.2) ∧
    (to_u64 (wrap_int (wrap_int (256 * 256) * 4)) = 262144 ∧
      SIZE_ALIGN (to_u32 (wrap_int (256 * 4))) GPU_RGB_ALIGN_SZ * 256 = 262144) ∧
    (SIZE_ALIGN (to_u32 (wrap_int (100 * 4))) GPU_RGB_ALIGN_SZ = 448 ∧
      (400 * h < 2 ^ 31 →
        (to_u64 (wrap_int (wrap_int (100 * h) * 4)) : Int) = 400 * h)) := by
  lift w to Nat using hw
  lift h to Nat using (by omega)
  have hh1 : 1 ≤ h := by exact_mod_cast hh
  have hno1 : 4 * w * h < 2 ^ 31 := by exact_mod_cast hno
  obtain ⟨hlen, hstr⟩ := len_and_stride_of_small w h hno1 hh1
  refine ⟨?_, ?_, ?_, ⟨by decide, by decide⟩, by decide, ?_⟩
  · rw [hlen]
    push_cast
    ring
  · rw [hlen, hstr, Int.toNat_ofNat]
    have hle : 4 * w ≤ 64 * ((4 * w + 63) / 64) := by omega
    constructor
    · intro h1
      have h2 : 64 * ((4 * w + 63) / 64) * h ≤ 4 * w * h := h1
      have h3 : 64 * ((4 * w + 63) / 64) ≤ 4 * w := Nat.le_of_mul_le_mul_right h2 (by omega)
      have h4 : 16 ∣ w := by omega
      exact_mod_cast h4
    · intro h1
      have h4 : 16 ∣ w := by exact_mod_cast h1
      have h3 : 64 * ((4 * w + 63) / 64) = 4 * w := by omega
      rw [h3]
  · intro ty env buf fmt heaps fd hq hs ha hfd hm
    exact create_dmabuf_buffer_requests ty env buf w h fmt heaps fd hq hs ha hfd hm
  · intro h400
    have h400n : 4 * 100 * h < 2 ^ 31 := by
      have : (400 : Int) * h < 2 ^ 31 := h400
      omega
    have := (len_and_stride_of_small 100 h h400n hh1).1
    have e : ((100 : Nat) : Int) = 100 := rfl
    rw [e] at this
    rw [this]
    push_cast
    ring

theorem C16_length_covers_stride_witness :
    ((0 : Int) ≤ 256 ∧ (1 : Int) ≤ 256 ∧ (4 * 256 * 256 : Int) < 2 ^ 31) ∧
    (SIZE_ALIGN (to_u32 (wrap_int (256 * 4))) GPU_RGB_ALIGN_SZ * (256 : Int).toNat ≤
      to_u64 (wrap_int (wrap_int (256 * 256) * 4))) ∧
    ((to_u64 (wrap_int (wrap_int (100 * 100) * 4)) : Int) = 100 * 100 * 4) :=
  ⟨⟨by decide, by decide, by norm_num⟩,
   (C16_length_covers_stride_iff 256 256 (by decide) (by decide) (by norm_num)).2.1.2
     (by norm_num),
   (C16_length_covers_stride_iff 100 100 (by decide) (by decide) (by norm_num)).1⟩

/-! ## C17: the first frame -/

end SimpleDmabufIon
